import Mathlib

/-!
Verification of the lifepic-backend sync-and-merge pipeline and proximity
search, as a shallow embedding of the Python source.

Sources embedded:
- `app/services/tdx_parking.py`  : `parse_parking_lot`, `merge_availability`
- `app/services/tdx_charging.py` : `parse_charging_station`, `merge_availability`
- `app/routers/sync.py`          : `trigger_sync`, `trigger_charging_sync`
                                   (per-city loop and SyncStatus upserts)
- `app/routers/parking.py` / `app/routers/charging.py` :
                                   `haversine_distance`, `get_nearby_*`

Modelling conventions:
- Upstream JSON fields that may be a plain string or a language map are the
  inductive `TextField`; Python's truthiness-based `x or y` fallback chains
  are `resolveLocalized`.
- `datetime.fromisoformat` is modelled abstractly: an upstream timestamp
  string either fails to parse (`IsoTimeString.malformed`, the caught
  `ValueError`) or denotes an `IsoDatetime`, a local-clock reading
  (`local_clock`, seconds) together with an optional UTC offset
  (`utc_offset`, seconds; `none` models a naive datetime).
  `datetime.replace(tzinfo=None)` is then the record update dropping
  `utc_offset`.
- The sync loops' exceptions all originate at await points (TDX fetch /
  auth); the two fetches of a partition are modelled as one
  `Except String` value whose `.error` carries `str(e)`.
- Real-number arithmetic of the geo code is modelled over `ℝ`;
  `math.atan2` is `atan2` below with the usual quadrant cases.
- Python's `set(...)` before `", ".join` is modelled as order-preserving
  deduplication (`List.dedup`); Python set iteration order is unspecified.
- `datetime.utcnow()` during one partition's ledger upsert is a single
  abstract tick `now : ℕ`.
-/

/-! ## Text fields and language fallback (`tdx_parking.py` / `tdx_charging.py`) -/

/-- An upstream text-valued JSON field: absent, a plain string, or a
language-keyed mapping with optional `Zh_tw` / `En` entries. -/
inductive TextField where
  | absent : TextField
  | plain (s : String) : TextField
  | localized (zh en : Option String) : TextField
deriving DecidableEq

/-- Python's `d.get("Zh_tw") or d.get("En") or fb`: the first truthy
(non-`None`, non-empty) value, else the fallback. -/
def resolveLocalized (zh en : Option String) (fb : String) : String :=
  match zh with
  | some s => if s ≠ "" then s else
      match en with
      | some t => if t ≠ "" then t else fb
      | none => fb
  | none =>
      match en with
      | some t => if t ≠ "" then t else fb
      | none => fb

/-- A text field read with `data.get(key, {})` and then resolved with
fallback `fb` if it is a dict (absent behaves as the empty dict `{}`);
a plain string is kept unchanged. Used for `CarParkName`, `Address`,
`FareDescription`, `OperatorName`, `ChargingFee`, `ParkingFee`. -/
def resolveTextDictDefault (f : TextField) (fb : String) : String :=
  match f with
  | .absent => resolveLocalized none none fb
  | .plain s => s
  | .localized zh en => resolveLocalized zh en fb

/-! ## Timestamps (`merge_availability`, both services) -/

/-- A parsed ISO-8601 datetime: the clock reading as written (seconds)
plus an optional UTC offset in seconds (`none` = naive). -/
structure IsoDatetime where
  local_clock : Int
  utc_offset : Option Int
deriving DecidableEq

/-- An upstream timestamp string, abstracted to its parse outcome. -/
inductive IsoTimeString where
  | malformed : IsoTimeString
  | wellFormed (dt : IsoDatetime) : IsoTimeString
deriving DecidableEq

/-- `datetime.fromisoformat(s.replace("Z", "+00:00"))`, with the raised
`ValueError` as `none`. A `Z` suffix is already an explicit zero offset. -/
def fromisoformat : IsoTimeString → Option IsoDatetime
  | .malformed => none
  | .wellFormed dt => some dt

/-- The UTC instant an aware datetime denotes (what a correct conversion
to UTC would store); for a naive datetime, the clock value itself. -/
def toUtcInstant (dt : IsoDatetime) : Int :=
  dt.local_clock - dt.utc_offset.getD 0

/-- The shared timestamp block of both `merge_availability` functions:
`if update_time: try: dt = fromisoformat(...); if dt.tzinfo is not None:
dt = dt.replace(tzinfo=None); target = dt; except: pass`. -/
def mergeDataUpdatedAt (prev : Option IsoDatetime) (update_time : Option IsoTimeString) :
    Option IsoDatetime :=
  match update_time with
  | none => prev
  | some s =>
      match fromisoformat s with
      | none => prev
      | some dt => some (if dt.utc_offset.isSome then { dt with utc_offset := none } else dt)

/-! ## Parking: raw records, parse, merge (`tdx_parking.py`) -/

/-- The `CarParkPosition` sub-object (fields absent ⇒ `None` coordinates). -/
structure RawPosition where
  PositionLat : Option ℝ
  PositionLon : Option ℝ

/-- A raw TDX parking-lot record, restricted to the fields
`parse_parking_lot` reads. -/
structure RawCarPark where
  CarParkID : Option String
  CarParkName : TextField
  Address : TextField
  FareDescription : TextField
  CarParkPosition : Option RawPosition
  TotalSpaces : Option Int

/-- The dict `parse_parking_lot` returns (keys it does not set are the
`none` defaults, matching `parsed.get(...)` at the upsert site). -/
structure ParsedLot where
  park_id : String
  name : String
  city : String
  address : String
  latitude : Option ℝ
  longitude : Option ℝ
  total_spaces : Option Int
  fare_description : String
  parking_type : String
  available_spaces : Option Int
  data_updated_at : Option IsoDatetime

/-- `TDXParkingService.parse_parking_lot`. -/
def parse_parking_lot (data : RawCarPark) (city : String) : ParsedLot :=
  let position := data.CarParkPosition.getD ⟨none, none⟩
  { park_id := data.CarParkID.getD ""
    name := resolveTextDictDefault data.CarParkName "Unknown"
    city := city
    address := resolveTextDictDefault data.Address ""
    latitude := position.PositionLat
    longitude := position.PositionLon
    total_spaces := data.TotalSpaces
    fare_description := resolveTextDictDefault data.FareDescription ""
    parking_type := "OffStreet"
    available_spaces := none
    data_updated_at := none }

/-- A raw TDX parking-availability record, restricted to the fields the
sync loop and `merge_availability` read. -/
structure ParkAvailability where
  CarParkID : Option String
  AvailableSpaces : Option Int
  DataCollectTime : Option IsoTimeString
  SrcUpdateTime : Option IsoTimeString

/-- `TDXParkingService.merge_availability`; the availability map is the
dict built in the sync loop, as a partial lookup function. -/
def merge_availability_parking (parking_lot : ParsedLot)
    (availability_map : String → Option ParkAvailability) : ParsedLot :=
  match availability_map parking_lot.park_id with
  | none => parking_lot
  | some avail =>
      let lot := { parking_lot with available_spaces := avail.AvailableSpaces }
      let update_time :=
        match avail.DataCollectTime with
        | some s => some s
        | none => avail.SrcUpdateTime
      { lot with data_updated_at := mergeDataUpdatedAt lot.data_updated_at update_time }

/-! ## Charging: raw records, parse, merge (`tdx_charging.py`) -/

/-- A connector entry of a raw station record (`conn.get("ConnectorType", "")`). -/
structure RawConnector where
  ConnectorType : Option String
deriving DecidableEq

/-- A raw TDX charging-station record, restricted to the fields
`parse_charging_station` reads. -/
structure RawStation where
  StationID : Option String
  StationName : TextField
  Address : TextField
  OperatorName : TextField
  Position : Option RawPosition
  Connectors : Option (List RawConnector)
  ChargingFee : TextField
  ParkingFee : TextField
  Phone : Option String
  Is24Hours : Option Bool
  ServiceTime : Option String

/-- The dict `parse_charging_station` returns. -/
structure ParsedStation where
  station_id : String
  name : String
  address : String
  city : String
  latitude : Option ℝ
  longitude : Option ℝ
  operator_name : Option String
  phone : Option String
  is_24h : Option Bool
  business_hours : Option String
  total_chargers : Option Nat
  available_chargers : Option Nat
  charger_types : Option String
  fee_description : Option String
  parking_fee : Option String
  data_updated_at : Option IsoDatetime

/-- The de-duplicated non-empty `ConnectorType` values of a connector list
(the loop appending truthy `conn.get("ConnectorType", "")`). -/
def connectorTypesOf (connectors : List RawConnector) : List String :=
  connectors.filterMap (fun conn =>
    let t := conn.ConnectorType.getD ""
    if t ≠ "" then some t else none)

/-- `TDXChargingService.parse_charging_station`. -/
def parse_charging_station (data : RawStation) (city : String) : ParsedStation :=
  let position := data.Position.getD ⟨none, none⟩
  let name :=
    match data.StationName with
    | .absent => resolveLocalized none none "Unknown"
    | .localized zh en => resolveLocalized zh en "Unknown"
    | .plain s => if s ≠ "" then s else "Unknown"
  let operator := resolveTextDictDefault data.OperatorName ""
  let connectors := data.Connectors.getD []
  let connector_types := connectorTypesOf connectors
  let total_connectors := connectors.length
  let fee_desc := resolveTextDictDefault data.ChargingFee ""
  let parking_fee := resolveTextDictDefault data.ParkingFee ""
  { station_id := data.StationID.getD ""
    name := name
    address := resolveTextDictDefault data.Address ""
    city := city
    latitude := position.PositionLat
    longitude := position.PositionLon
    operator_name := if operator ≠ "" then some operator else none
    phone := data.Phone
    is_24h := data.Is24Hours
    business_hours := data.ServiceTime
    total_chargers := if total_connectors > 0 then some total_connectors else none
    available_chargers := none
    charger_types :=
      if connector_types ≠ [] then some (String.intercalate ", " connector_types.dedup)
      else none
    fee_description := if fee_desc ≠ "" then some fee_desc else none
    parking_fee := if parking_fee ≠ "" then some parking_fee else none
    data_updated_at := none }

/-- A connector entry of a raw connector-live-status record. -/
structure ConnectorStatus where
  Status : Option String
deriving DecidableEq

/-- A raw connector-live-status record, restricted to the fields the sync
loop and `merge_availability` read. -/
structure StationAvailability where
  StationID : Option String
  Connectors : Option (List ConnectorStatus)
  UpdateTime : Option IsoTimeString
  SrcUpdateTime : Option IsoTimeString

/-- `sum(1 for s in avail.get("Connectors", []) if s.get("Status") == "Available")`. -/
def countAvailableConnectors (connectors : List ConnectorStatus) : Nat :=
  (connectors.filter (fun s => decide (s.Status = some "Available"))).length

/-- `TDXChargingService.merge_availability`. -/
def merge_availability_charging (station : ParsedStation)
    (availability_map : String → Option StationAvailability) : ParsedStation :=
  match availability_map station.station_id with
  | none => station
  | some avail =>
      let available := countAvailableConnectors (avail.Connectors.getD [])
      let st := { station with available_chargers := some available }
      let update_time :=
        match avail.UpdateTime with
        | some s => some s
        | none => avail.SrcUpdateTime
      { st with data_updated_at := mergeDataUpdatedAt st.data_updated_at update_time }

/-! ## Sync loops and the SyncStatus ledger (`routers/sync.py`) -/

/-- The keys of `SUPPORTED_CITIES` in `tdx_parking.py` (the same 22 keys
form `SUPPORTED_CITIES_EV` in `tdx_charging.py`). -/
def SUPPORTED_CITIES : List String :=
  ["Taipei", "NewTaipei", "Taoyuan", "Taichung", "Tainan", "Kaohsiung",
   "Keelung", "Hsinchu", "HsinchuCounty", "MiaoliCounty", "ChanghuaCounty",
   "NantouCounty", "YunlinCounty", "ChiayiCounty", "Chiayi", "PingtungCounty",
   "YilanCounty", "HualienCounty", "TaitungCounty", "PenghuCounty",
   "KinmenCounty", "LienchiangCounty"]

/-- A `SyncStatus` row (`last_sync_at` abstracted to a run tick). -/
structure SyncRow where
  last_sync_at : Nat
  records_synced : Nat
  status : String
  error_message : Option String
deriving DecidableEq

/-- The success-path `SyncStatus` upsert of `trigger_sync`: on insert the
values are `(now, records_synced, "success")` with the `error_message`
column at its `NULL` default; on conflict every one of the four fields is
in `set_`, so both branches store the same row. -/
def upsertSyncSuccess (ledger : String → Option SyncRow) (city : String)
    (now records_synced : Nat) : String → Option SyncRow :=
  fun c => if c = city then
    some { last_sync_at := now, records_synced := records_synced,
           status := "success", error_message := none }
  else ledger c

/-- The failed-path `SyncStatus` upsert of `trigger_sync`: on insert the
values are `(now, 0, "failed", error_msg)`; on conflict the `set_` dict
updates only `last_sync_at`, `status` and `error_message`, leaving an
existing row's `records_synced` untouched. -/
def upsertSyncFailed (ledger : String → Option SyncRow) (city : String)
    (now : Nat) (error_msg : String) : String → Option SyncRow :=
  fun c => if c = city then
    match ledger city with
    | none =>
        some { last_sync_at := now, records_synced := 0,
               status := "failed", error_message := some error_msg }
    | some old =>
        some { last_sync_at := now, records_synced := old.records_synced,
               status := "failed", error_message := some error_msg }
  else ledger c

/-- The dict comprehension keying availability records on truthy
`CarParkID` (later items win, as in a Python dict build). -/
def buildParkAvailabilityMap (availability : List ParkAvailability) :
    String → Option ParkAvailability :=
  availability.foldl (fun m item =>
    match item.CarParkID with
    | some k => if k ≠ "" then (fun c => if c = k then some item else m c) else m
    | none => m) (fun _ => none)

/-- The dict comprehension keying connector-status records on truthy
`StationID`. -/
def buildStationStatusMap (status_data : List StationAvailability) :
    String → Option StationAvailability :=
  status_data.foldl (fun m item =>
    match item.StationID with
    | some k => if k ≠ "" then (fun c => if c = k then some item else m c) else m
    | none => m) (fun _ => none)

/-- The database-visible outcome of one sync invocation: the `SyncStatus`
table plus the response accumulators. -/
structure SyncState where
  ledger : String → Option SyncRow
  total_records : Nat
  synced_cities : List String

/-- The `records_synced` counter of one `trigger_sync` iteration: records
with falsy `park_id` are skipped before the upsert and the increment. -/
def parkingRecordsSynced (city : String) (parking_lots : List RawCarPark)
    (availability : List ParkAvailability) : Nat :=
  let availability_map := buildParkAvailabilityMap availability
  let parsed := parking_lots.map
    (fun lot_data => merge_availability_parking (parse_parking_lot lot_data city)
      availability_map)
  (parsed.filter (fun p => p.park_id ≠ "")).length

/-- One iteration of the `trigger_sync` per-city loop. A `.error` fetch
models an exception raised inside the `try` block (TDX fetch / auth /
DB failure), carrying `str(e)`; parse and merge are total and raise
nothing. -/
def parkingProcessCity
    (fetch : String → Except String (List RawCarPark × List ParkAvailability))
    (now : Nat) (st : SyncState) (city : String) : SyncState :=
  match fetch city with
  | .ok (parking_lots, availability) =>
      let records_synced := parkingRecordsSynced city parking_lots availability
      { ledger := upsertSyncSuccess st.ledger city now records_synced
        total_records := st.total_records + records_synced
        synced_cities := st.synced_cities ++ [city] }
  | .error e =>
      { st with ledger := upsertSyncFailed st.ledger city now e }

/-- The `trigger_sync` per-city loop over the requested cities. -/
def runParkingSync (cities : List String)
    (fetch : String → Except String (List RawCarPark × List ParkAvailability))
    (now : Nat) (init : String → Option SyncRow) : SyncState :=
  cities.foldl (parkingProcessCity fetch now) ⟨init, 0, []⟩

/-- `request.cities if request and request.cities else list(SUPPORTED_CITIES.keys())`
(an absent request and an empty list are both falsy). -/
def requestedCities (request_cities : Option (List String)) : List String :=
  match request_cities with
  | some cs => if cs ≠ [] then cs else SUPPORTED_CITIES
  | none => SUPPORTED_CITIES

/-- `trigger_sync`: validate the requested city codes (an invalid code is
a 400 before any fetch), then run the loop. -/
def trigger_sync (request_cities : Option (List String))
    (fetch : String → Except String (List RawCarPark × List ParkAvailability))
    (now : Nat) (init : String → Option SyncRow) : Except String SyncState :=
  let cities_to_sync := requestedCities request_cities
  let invalid_cities := cities_to_sync.filter (fun c => decide (c ∉ SUPPORTED_CITIES))
  if invalid_cities ≠ [] then .error "Invalid city codes"
  else .ok (runParkingSync cities_to_sync fetch now init)

/-- The six-city default of `trigger_charging_sync`. -/
def DEFAULT_CHARGING_CITIES : List String :=
  ["Taipei", "NewTaipei", "Taoyuan", "Taichung", "Tainan", "Kaohsiung"]

/-- The `records_synced` counter of one `trigger_charging_sync` iteration:
records with falsy `station_id` are skipped before the upsert and the
increment. -/
def chargingRecordsSynced (city : String) (stations : List RawStation)
    (status_data : List StationAvailability) : Nat :=
  let status_map := buildStationStatusMap status_data
  let parsed := stations.map
    (fun station_data => merge_availability_charging
      (parse_charging_station station_data city) status_map)
  (parsed.filter (fun p => p.station_id ≠ "")).length

/-- One iteration of the `trigger_charging_sync` per-city loop: on success
the stations are upserted and committed and the city counted; on an
exception the error is printed, the partition's upserts are rolled back,
and the loop continues — the `SyncStatus` ledger is never touched on
either path. -/
def chargingProcessCity
    (fetch : String → Except String (List RawStation × List StationAvailability))
    (st : SyncState) (city : String) : SyncState :=
  match fetch city with
  | .ok (stations, status_data) =>
      let records_synced := chargingRecordsSynced city stations status_data
      { st with
        total_records := st.total_records + records_synced
        synced_cities := st.synced_cities ++ [city] }
  | .error _ => st

/-- The `trigger_charging_sync` per-city loop. -/
def runChargingSync (cities : List String)
    (fetch : String → Except String (List RawStation × List StationAvailability))
    (init : String → Option SyncRow) : SyncState :=
  cities.foldl (chargingProcessCity fetch) ⟨init, 0, []⟩

/-- `trigger_charging_sync`: default to six major cities, validate against
`SUPPORTED_CITIES_EV` (the same 22 keys), then run the loop. -/
def trigger_charging_sync (request_cities : Option (List String))
    (fetch : String → Except String (List RawStation × List StationAvailability))
    (init : String → Option SyncRow) : Except String SyncState :=
  let cities_to_sync :=
    match request_cities with
    | some cs => if cs ≠ [] then cs else DEFAULT_CHARGING_CITIES
    | none => DEFAULT_CHARGING_CITIES
  let invalid_cities := cities_to_sync.filter (fun c => decide (c ∉ SUPPORTED_CITIES))
  if invalid_cities ≠ [] then .error "Invalid city codes"
  else .ok (runChargingSync cities_to_sync fetch init)

/-! ## Geo distance and proximity search (`routers/parking.py` / `routers/charging.py`) -/

/-- `math.atan2 y x` with the usual quadrant conventions
(`atan2 0 0 = 0`, as in CPython). -/
noncomputable def atan2 (y x : ℝ) : ℝ :=
  if 0 < x then Real.arctan (y / x)
  else if x < 0 then
    (if 0 ≤ y then Real.arctan (y / x) + Real.pi else Real.arctan (y / x) - Real.pi)
  else if 0 < y then Real.pi / 2
  else if y < 0 then -(Real.pi / 2)
  else 0

/-- `math.radians`. -/
noncomputable def radians (x : ℝ) : ℝ := x * Real.pi / 180

/-- The intermediate `a` of `haversine_distance`:
`sin(Δφ/2)² + cos(φ1)·cos(φ2)·sin(Δλ/2)²`. -/
noncomputable def hav_a (lat1 lon1 lat2 lon2 : ℝ) : ℝ :=
  Real.sin (radians (lat2 - lat1) / 2) ^ 2 +
    Real.cos (radians lat1) * Real.cos (radians lat2) *
      Real.sin (radians (lon2 - lon1) / 2) ^ 2

/-- `haversine_distance` (identical in both routers):
`c = 2·atan2(√a, √(1-a))`, result `6371000 · c` meters. -/
noncomputable def haversine_distance (lat1 lon1 lat2 lon2 : ℝ) : ℝ :=
  6371000 * (2 * atan2 (Real.sqrt (hav_a lat1 lon1 lat2 lon2))
    (Real.sqrt (1 - hav_a lat1 lon1 lat2 lon2)))

/-- A stored facility row as the nearby endpoints see it (`ParkingLot` or
`ChargingStation`): nullable coordinates. -/
structure Facility where
  latitude : Option ℝ
  longitude : Option ℝ

/-- The SQL bounding-box `WHERE` clause: coordinates non-`NULL` and each
`BETWEEN` its bound (inclusive). -/
noncomputable def inBoundingBox (latMin latMax lngMin lngMax : ℝ) (f : Facility) : Bool :=
  match f.latitude, f.longitude with
  | some a, some b =>
      decide (latMin ≤ a) && decide (a ≤ latMax) &&
        decide (lngMin ≤ b) && decide (b ≤ lngMax)
  | _, _ => false

/-- The per-candidate body of the nearby loop: the truthiness re-check
`if parking.latitude and parking.longitude` (so `None` **and** exactly-0
coordinates are skipped), the exact distance, and the radius filter. -/
noncomputable def candidateStep (lat lng radius : ℝ) (f : Facility) : Option (Facility × ℝ) :=
  match f.latitude, f.longitude with
  | some a, some b =>
      if a ≠ 0 ∧ b ≠ 0 then
        if haversine_distance lat lng a b ≤ radius then
          some (f, haversine_distance lat lng a b)
        else none
      else none
  | _, _ => none

/-- `get_nearby_parking` / `get_nearby_charging` over a stored facility
set: bounding-box prefilter, exact-distance filter, sort ascending by
distance (`list.sort`, a stable mergesort), truncate to `limit`. -/
noncomputable def get_nearby (lat lng radius : ℝ) (lim : ℕ) (facilities : List Facility) :
    List (Facility × ℝ) :=
  let lat_range := radius / 111000
  let lng_range := radius / (111000 * Real.cos (radians lat))
  let candidates := facilities.filter
    (inBoundingBox (lat - lat_range) (lat + lat_range) (lng - lng_range) (lng + lng_range))
  let nearby_items := candidates.filterMap (candidateStep lat lng radius)
  (nearby_items.mergeSort (fun p q => decide (p.2 ≤ q.2))).take lim

/-! ## Concrete sample inputs used by witnesses and counterexamples -/

/-- A fetch where the partition `Taipei` raises and every other partition
returns no data. -/
def sampleParkingFetch : String → Except String (List RawCarPark × List ParkAvailability) :=
  fun c => if c = "Taipei" then .error "boom" else .ok ([], [])

/-- The charging analogue of `sampleParkingFetch`. -/
def sampleChargingFetch : String → Except String (List RawStation × List StationAvailability) :=
  fun c => if c = "Taipei" then .error "boom" else .ok ([], [])

/-- An empty `SyncStatus` table. -/
def emptyLedger : String → Option SyncRow := fun _ => none

/-- A ledger holding a previous successful run for `Taipei` with 5
records synced. -/
def sampleLedger : String → Option SyncRow :=
  fun c => if c = "Taipei" then
    some { last_sync_at := 0, records_synced := 5, status := "success", error_message := none }
  else none

/-- A parsed parking lot with id `A1` and no availability merged yet. -/
def sampleLot : ParsedLot :=
  { park_id := "A1", name := "N", city := "Taipei", address := "",
    latitude := none, longitude := none, total_spaces := none,
    fare_description := "", parking_type := "OffStreet",
    available_spaces := none, data_updated_at := none }

/-- A parking-availability record for `A1` carrying a `+08:00` timestamp
(local clock 43200, offset 28800 seconds). -/
def sampleParkAvail : ParkAvailability :=
  { CarParkID := some "A1", AvailableSpaces := some 5,
    DataCollectTime := some (.wellFormed ⟨43200, some 28800⟩), SrcUpdateTime := none }

/-- A lookup map holding exactly `sampleParkAvail` under `A1`. -/
def sampleParkAvailMap : String → Option ParkAvailability :=
  fun c => if c = "A1" then some sampleParkAvail else none

/-- A parsed charging station with id `S1` and no availability merged yet. -/
def sampleStation : ParsedStation :=
  { station_id := "S1", name := "N", address := "", city := "Taipei",
    latitude := none, longitude := none, operator_name := none, phone := none,
    is_24h := none, business_hours := none, total_chargers := none,
    available_chargers := none, charger_types := none, fee_description := none,
    parking_fee := none, data_updated_at := none }

/-- A connector-status record for `S1` with an empty `Connectors` list and
a `+08:00` timestamp. -/
def sampleStationAvail : StationAvailability :=
  { StationID := some "S1", Connectors := some [],
    UpdateTime := some (.wellFormed ⟨43200, some 28800⟩), SrcUpdateTime := none }

/-- A lookup map holding exactly `sampleStationAvail` under `S1`. -/
def sampleStationAvailMap : String → Option StationAvailability :=
  fun c => if c = "S1" then some sampleStationAvail else none

/-- A connector-status record for `S1` with one available connector, one
occupied one and one with no `Status` field. -/
def sampleStationAvail2 : StationAvailability :=
  { StationID := some "S1",
    Connectors := some [⟨some "Available"⟩, ⟨some "Charging"⟩, ⟨none⟩],
    UpdateTime := none, SrcUpdateTime := none }

/-- A lookup map holding exactly `sampleStationAvail2` under `S1`. -/
def sampleStationAvailMap2 : String → Option StationAvailability :=
  fun c => if c = "S1" then some sampleStationAvail2 else none

/-- A raw parking lot whose `CarParkName` is the empty plain string. -/
def rawEmptyName : RawCarPark :=
  { CarParkID := some "A1", CarParkName := .plain "", Address := .absent,
    FareDescription := .absent, CarParkPosition := none, TotalSpaces := none }

/-- A raw parking lot with every text field absent. -/
def rawAbsentName : RawCarPark :=
  { CarParkID := some "A1", CarParkName := .absent, Address := .absent,
    FareDescription := .absent, CarParkPosition := none, TotalSpaces := none }

/-- A raw parking lot with language-map name and address. -/
def rawLocName : RawCarPark :=
  { CarParkID := some "A1", CarParkName := .localized (some "ZH") (some "EN"),
    Address := .localized none none, FareDescription := .absent,
    CarParkPosition := none, TotalSpaces := none }

/-- A raw charging station with every optional field absent. -/
def rawsAbsent : RawStation :=
  { StationID := some "S1", StationName := .absent, Address := .absent,
    OperatorName := .absent, Position := none, Connectors := none,
    ChargingFee := .absent, ParkingFee := .absent, Phone := none,
    Is24Hours := none, ServiceTime := none }

/-- `rawsAbsent` with the empty plain string as station name. -/
def rawsPlainEmpty : RawStation := { rawsAbsent with StationName := .plain "" }

/-- `rawsAbsent` with a non-empty plain-string station name. -/
def rawsPlainName : RawStation := { rawsAbsent with StationName := .plain "Sta" }

/-- `rawsAbsent` with a single connector whose `ConnectorType` is the
empty string. -/
def rawsEmptyTypeConn : RawStation := { rawsAbsent with Connectors := some [⟨some ""⟩] }

/-- `rawsAbsent` with three typed connectors (one duplicate type). -/
def rawsTypedConns : RawStation :=
  { rawsAbsent with Connectors := some [⟨some "CCS2"⟩, ⟨some "CHAdeMO"⟩, ⟨some "CCS2"⟩] }

/-! ## Lemmas about the sync loops -/

lemma parkingProcessCity_ledger_other
    (fetch : String → Except String (List RawCarPark × List ParkAvailability))
    (now : Nat) (st : SyncState) (city c : String) (h : c ≠ city) :
    (parkingProcessCity fetch now st city).ledger c = st.ledger c := by
  unfold parkingProcessCity
  rcases fetch city with e | ⟨lots, avails⟩ <;>
    simp [upsertSyncSuccess, upsertSyncFailed, h]

lemma foldl_parking_ledger_not_mem
    (cities : List String)
    (fetch : String → Except String (List RawCarPark × List ParkAvailability))
    (now : Nat) (st : SyncState) (c : String) (h : c ∉ cities) :
    (cities.foldl (parkingProcessCity fetch now) st).ledger c = st.ledger c := by
  induction cities generalizing st with
  | nil => rfl
  | cons c0 rest ih =>
      rw [List.foldl_cons, ih _ (fun hm => h (List.mem_cons_of_mem _ hm)),
        parkingProcessCity_ledger_other]
      exact fun hc => h (hc ▸ List.mem_cons_self _ _)

lemma foldl_parking_ledger_error
    (cities : List String)
    (fetch : String → Except String (List RawCarPark × List ParkAvailability))
    (now : Nat) (st : SyncState) (c : String) (msg : String)
    (hnd : cities.Nodup) (hc : c ∈ cities) (hf : fetch c = .error msg) :
    (cities.foldl (parkingProcessCity fetch now) st).ledger c =
      some { last_sync_at := now,
             records_synced := (st.ledger c).elim 0 (fun old => old.records_synced),
             status := "failed", error_message := some msg } := by
  induction cities generalizing st with
  | nil => cases hc
  | cons c0 rest ih =>
      rw [List.foldl_cons]
      rcases List.nodup_cons.1 hnd with ⟨h0, hrest⟩
      rcases List.mem_cons.1 hc with rfl | hmem
      · rw [foldl_parking_ledger_not_mem _ _ _ _ _ h0]
        unfold parkingProcessCity
        rw [hf]
        simp only [upsertSyncFailed, if_pos rfl]
        rcases st.ledger c with _ | old <;> rfl
      · have hne : c ≠ c0 := fun he => h0 (he ▸ hmem)
        rw [ih _ hrest hmem, parkingProcessCity_ledger_other _ _ _ _ _ hne]

lemma foldl_parking_ledger_ok
    (cities : List String)
    (fetch : String → Except String (List RawCarPark × List ParkAvailability))
    (now : Nat) (st : SyncState) (c : String)
    (lots : List RawCarPark) (avails : List ParkAvailability)
    (hnd : cities.Nodup) (hc : c ∈ cities) (hf : fetch c = .ok (lots, avails)) :
    (cities.foldl (parkingProcessCity fetch now) st).ledger c =
      some { last_sync_at := now,
             records_synced := parkingRecordsSynced c lots avails,
             status := "success", error_message := none } := by
  induction cities generalizing st with
  | nil => cases hc
  | cons c0 rest ih =>
      rw [List.foldl_cons]
      rcases List.nodup_cons.1 hnd with ⟨h0, hrest⟩
      rcases List.mem_cons.1 hc with rfl | hmem
      · rw [foldl_parking_ledger_not_mem _ _ _ _ _ h0]
        unfold parkingProcessCity
        rw [hf]
        simp [upsertSyncSuccess]
      · exact ih _ hrest hmem

lemma parkingProcessCity_synced_mono
    (fetch : String → Except String (List RawCarPark × List ParkAvailability))
    (now : Nat) (st : SyncState) (city x : String)
    (h : x ∈ st.synced_cities) :
    x ∈ (parkingProcessCity fetch now st city).synced_cities := by
  unfold parkingProcessCity
  rcases fetch city with e | ⟨lots, avails⟩ <;> simp [h]

lemma foldl_parking_synced_mono
    (cities : List String)
    (fetch : String → Except String (List RawCarPark × List ParkAvailability))
    (now : Nat) (st : SyncState) (x : String)
    (h : x ∈ st.synced_cities) :
    x ∈ (cities.foldl (parkingProcessCity fetch now) st).synced_cities := by
  induction cities generalizing st with
  | nil => exact h
  | cons c0 rest ih =>
      rw [List.foldl_cons]
      exact ih _ (parkingProcessCity_synced_mono _ _ _ _ _ h)

lemma foldl_parking_synced_of_ok
    (cities : List String)
    (fetch : String → Except String (List RawCarPark × List ParkAvailability))
    (now : Nat) (st : SyncState) (c : String)
    (v : List RawCarPark × List ParkAvailability)
    (hc : c ∈ cities) (hf : fetch c = .ok v) :
    c ∈ (cities.foldl (parkingProcessCity fetch now) st).synced_cities := by
  induction cities generalizing st with
  | nil => cases hc
  | cons c0 rest ih =>
      rw [List.foldl_cons]
      rcases List.mem_cons.1 hc with rfl | hmem
      · refine foldl_parking_synced_mono _ _ _ _ _ ?_
        unfold parkingProcessCity
        rw [hf]
        simp
      · exact ih _ hmem

lemma chargingProcessCity_ledger
    (fetch : String → Except String (List RawStation × List StationAvailability))
    (st : SyncState) (city : String) :
    (chargingProcessCity fetch st city).ledger = st.ledger := by
  unfold chargingProcessCity
  rcases fetch city with e | ⟨stations, status_data⟩ <;> rfl

lemma foldl_charging_ledger
    (cities : List String)
    (fetch : String → Except String (List RawStation × List StationAvailability))
    (st : SyncState) :
    (cities.foldl (chargingProcessCity fetch) st).ledger = st.ledger := by
  induction cities generalizing st with
  | nil => rfl
  | cons c0 rest ih =>
      rw [List.foldl_cons, ih, chargingProcessCity_ledger]

lemma chargingProcessCity_synced_mono
    (fetch : String → Except String (List RawStation × List StationAvailability))
    (st : SyncState) (city x : String)
    (h : x ∈ st.synced_cities) :
    x ∈ (chargingProcessCity fetch st city).synced_cities := by
  unfold chargingProcessCity
  rcases fetch city with e | ⟨stations, status_data⟩ <;> simp [h]

lemma foldl_charging_synced_mono
    (cities : List String)
    (fetch : String → Except String (List RawStation × List StationAvailability))
    (st : SyncState) (x : String)
    (h : x ∈ st.synced_cities) :
    x ∈ (cities.foldl (chargingProcessCity fetch) st).synced_cities := by
  induction cities generalizing st with
  | nil => exact h
  | cons c0 rest ih =>
      rw [List.foldl_cons]
      exact ih _ (chargingProcessCity_synced_mono _ _ _ _ h)

lemma foldl_charging_synced_of_ok
    (cities : List String)
    (fetch : String → Except String (List RawStation × List StationAvailability))
    (st : SyncState) (c : String)
    (v : List RawStation × List StationAvailability)
    (hc : c ∈ cities) (hf : fetch c = .ok v) :
    c ∈ (cities.foldl (chargingProcessCity fetch) st).synced_cities := by
  induction cities generalizing st with
  | nil => cases hc
  | cons c0 rest ih =>
      rw [List.foldl_cons]
      rcases List.mem_cons.1 hc with rfl | hmem
      · refine foldl_charging_synced_mono _ _ _ _ ?_
        unfold chargingProcessCity
        rw [hf]
        simp
      · exact ih _ hmem

lemma foldl_charging_synced_sub
    (cities : List String)
    (fetch : String → Except String (List RawStation × List StationAvailability))
    (st : SyncState) (c : String)
    (h : c ∈ (cities.foldl (chargingProcessCity fetch) st).synced_cities) :
    c ∈ st.synced_cities ∨ ∃ v, fetch c = .ok v := by
  induction cities generalizing st with
  | nil => exact Or.inl h
  | cons c0 rest ih =>
      rw [List.foldl_cons] at h
      rcases ih _ h with hmem | hok
      · unfold chargingProcessCity at hmem
        rcases hf : fetch c0 with e | v
        · rw [hf] at hmem
          exact Or.inl hmem
        · rw [hf] at hmem
          simp only [List.mem_append, List.mem_singleton] at hmem
          rcases hmem with hmem | rfl
          · exact Or.inl hmem
          · exact Or.inr ⟨v, hf⟩
      · exact Or.inr hok

/-! ## Claim C1 -/

/-- C1 (amended). For the **parking** sync, a partition whose processing
raises an exception gets a persisted `SyncStatus` row with status
`failed` and the exception's message, and every other requested partition
is still processed (a partition whose fetch succeeds gets a `success`
row, a cleared error message, and appears in the synced list), exactly as
the claim states. For the **charging** sync the claim's ledger part fails
(see the counterexample): the loop does isolate failures and continues —
successfully fetched partitions are still synced — but a failing
partition's error is only printed and rolled back; no `SyncStatus` row is
written by the charging sync at all (the ledger is left exactly as it
was). -/
theorem claim_C1_per_partition_failure
    (req : Option (List String))
    (fetchP : String → Except String (List RawCarPark × List ParkAvailability))
    (fetchC : String → Except String (List RawStation × List StationAvailability))
    (now : Nat) (init : String → Option SyncRow) (stP stC : SyncState)
    (hP : trigger_sync req fetchP now init = .ok stP)
    (hC : trigger_charging_sync req fetchC init = .ok stC)
    (hnd : (requestedCities req).Nodup) :
    (∀ c ∈ requestedCities req, ∀ msg, fetchP c = .error msg →
        ∃ row, stP.ledger c = some row ∧ row.status = "failed"
          ∧ row.error_message = some msg)
    ∧ (∀ c ∈ requestedCities req, ∀ lots avails, fetchP c = .ok (lots, avails) →
        stP.ledger c =
          some { last_sync_at := now,
                 records_synced := parkingRecordsSynced c lots avails,
                 status := "success", error_message := none }
          ∧ c ∈ stP.synced_cities)
    ∧ (∀ c, stC.ledger c = init c)
    ∧ (∀ c msg, fetchC c = .error msg → c ∉ stC.synced_cities)
    ∧ (∀ cs c v, req = some cs → cs ≠ [] → c ∈ cs → fetchC c = .ok v →
        c ∈ stC.synced_cities) := by
  have hstP : stP = runParkingSync (requestedCities req) fetchP now init := by
    unfold trigger_sync at hP
    by_cases hinv :
        (requestedCities req).filter (fun c => decide (c ∉ SUPPORTED_CITIES)) ≠ []
    · rw [if_pos hinv] at hP
      cases hP
    · rw [if_neg hinv] at hP
      cases hP
      rfl
  have hchargingCities : ∃ cs, stC = runChargingSync cs fetchC init ∧
      (∀ cs0, req = some cs0 → cs0 ≠ [] → cs = cs0) := by
    unfold trigger_charging_sync at hC
    rcases req with _ | cs0
    · simp only at hC
      by_cases hinv :
          DEFAULT_CHARGING_CITIES.filter (fun c => decide (c ∉ SUPPORTED_CITIES)) ≠ []
      · rw [if_pos hinv] at hC
        cases hC
      · rw [if_neg hinv] at hC
        cases hC
        exact ⟨DEFAULT_CHARGING_CITIES, rfl, fun cs0 h => by cases h⟩
    · simp only at hC
      by_cases hne : cs0 ≠ []
      · rw [if_pos hne] at hC
        by_cases hinv : cs0.filter (fun c => decide (c ∉ SUPPORTED_CITIES)) ≠ []
        · rw [if_pos hinv] at hC
          cases hC
        · rw [if_neg hinv] at hC
          cases hC
          exact ⟨cs0, rfl, fun cs1 h _ => by cases h; rfl⟩
      · rw [if_neg hne] at hC
        by_cases hinv :
            DEFAULT_CHARGING_CITIES.filter (fun c => decide (c ∉ SUPPORTED_CITIES)) ≠ []
        · rw [if_pos hinv] at hC
          cases hC
        · rw [if_neg hinv] at hC
          cases hC
          exact ⟨DEFAULT_CHARGING_CITIES, rfl, fun cs1 h h1 => by
            cases h; exact absurd h1 hne⟩
  rcases hchargingCities with ⟨cs, hstC, hcs⟩
  subst hstP
  subst hstC
  refine ⟨?_, ?_, ?_, ?_, ?_⟩
  · intro c hc msg hf
    refine ⟨_, foldl_parking_ledger_error _ _ _ _ _ _ hnd hc hf, rfl, rfl⟩
  · intro c hc lots avails hf
    exact ⟨foldl_parking_ledger_ok _ _ _ _ _ _ _ hnd hc hf,
      foldl_parking_synced_of_ok _ _ _ _ _ _ hc hf⟩
  · intro c
    rw [runChargingSync, foldl_charging_ledger]
  · intro c msg hf hmem
    rcases foldl_charging_synced_sub _ _ _ _ hmem with h | ⟨v, hv⟩
    · cases h
    · rw [hf] at hv
      cases hv
  · intro cs0 c v hreq hne hc hf
    rw [runChargingSync, hcs cs0 hreq hne]
    exact foldl_charging_synced_of_ok _ _ _ _ _ hc hf

/-- C1 counterexample. A charging sync of the single requested partition
`Taipei`, whose processing raises `boom`: the claim requires the
persisted `SyncStatus` row for `Taipei` to be `failed` with message
`boom`, but the charging sync writes nothing — starting from an empty
ledger, the row is still absent after the invocation. -/
theorem claim_C1_counterexample :
    trigger_charging_sync (some ["Taipei"]) sampleChargingFetch emptyLedger =
      .ok (runChargingSync ["Taipei"] sampleChargingFetch emptyLedger)
    ∧ sampleChargingFetch "Taipei" = .error "boom"
    ∧ (runChargingSync ["Taipei"] sampleChargingFetch emptyLedger).ledger "Taipei" = none := by
  exact ⟨rfl, rfl, rfl⟩

/-- C1 witness: the amended claim at a concrete two-partition parking run
(`Taipei` raises, `Taichung` succeeds) and the corresponding charging
run. -/
theorem claim_C1_witness :
    (∃ row,
        (runParkingSync ["Taipei", "Taichung"] sampleParkingFetch 7 emptyLedger).ledger
            "Taipei" = some row
        ∧ row.status = "failed" ∧ row.error_message = some "boom")
    ∧ (runParkingSync ["Taipei", "Taichung"] sampleParkingFetch 7 emptyLedger).ledger
        "Taichung" =
          some { last_sync_at := 7, records_synced := 0,
                 status := "success", error_message := none }
    ∧ "Taichung" ∈
        (runParkingSync ["Taipei", "Taichung"] sampleParkingFetch 7 emptyLedger).synced_cities
    ∧ (runChargingSync ["Taipei", "Taichung"] sampleChargingFetch emptyLedger).ledger
        "Taipei" = none
    ∧ "Taipei" ∉
        (runChargingSync ["Taipei", "Taichung"] sampleChargingFetch emptyLedger).synced_cities
    ∧ "Taichung" ∈
        (runChargingSync ["Taipei", "Taichung"] sampleChargingFetch emptyLedger).synced_cities := by
  have h := claim_C1_per_partition_failure (some ["Taipei", "Taichung"])
    sampleParkingFetch sampleChargingFetch 7 emptyLedger
    (runParkingSync ["Taipei", "Taichung"] sampleParkingFetch 7 emptyLedger)
    (runChargingSync ["Taipei", "Taichung"] sampleChargingFetch emptyLedger)
    rfl rfl (by decide)
  refine ⟨h.1 "Taipei" (by decide) "boom" rfl, ?_, ?_, ?_, ?_, ?_⟩
  · exact (h.2.1 "Taichung" (by decide) [] [] rfl).1
  · exact (h.2.1 "Taichung" (by decide) [] [] rfl).2
  · exact (h.2.2.1 "Taipei").trans rfl
  · exact h.2.2.2.1 "Taipei" "boom" rfl
  · exact h.2.2.2.2 ["Taipei", "Taichung"] "Taichung" ([], []) rfl (by decide)
      (by decide) rfl

/-! ## Claim C3 -/

/-- C3 (amended). The success-path `SyncStatus` upsert overwrites the
whole row — timestamp, count, status, and a cleared error message —
regardless of any existing row, as the claim states. The failed-path
upsert overwrites timestamp, status and error message, but **preserves an
existing row's records-synced count** (it stores 0 only when the row is
newly created), contrary to the claim's "a failed run overwrites the
records-synced count as well". -/
theorem claim_C3_ledger_overwrite
    (ledger : String → Option SyncRow) (city : String) (now n : Nat) (msg : String) :
    upsertSyncSuccess ledger city now n city =
      some { last_sync_at := now, records_synced := n,
             status := "success", error_message := none }
    ∧ (ledger city = none →
        upsertSyncFailed ledger city now msg city =
          some { last_sync_at := now, records_synced := 0,
                 status := "failed", error_message := some msg })
    ∧ (∀ old, ledger city = some old →
        upsertSyncFailed ledger city now msg city =
          some { last_sync_at := now, records_synced := old.records_synced,
                 status := "failed", error_message := some msg }) := by
  refine ⟨by simp [upsertSyncSuccess], fun h => ?_, fun old h => ?_⟩
  · simp [upsertSyncFailed, h]
  · simp [upsertSyncFailed, h]

/-- C3 counterexample. A failed parking sync of `Taipei` over a ledger
where `Taipei` previously succeeded with 5 records: after the run the row
keeps `records_synced = 5` from the previous run, while the claim
("overwritten entirely … a failed run overwrites the records-synced count
as well") requires this run's count 0. -/
theorem claim_C3_counterexample :
    (runParkingSync ["Taipei"] sampleParkingFetch 1 sampleLedger).ledger "Taipei" =
      some { last_sync_at := 1, records_synced := 5,
             status := "failed", error_message := some "boom" }
    ∧ (runParkingSync ["Taipei"] sampleParkingFetch 1 sampleLedger).ledger "Taipei" ≠
      some { last_sync_at := 1, records_synced := 0,
             status := "failed", error_message := some "boom" } := by
  exact ⟨rfl, by decide⟩

/-- C3 witness: the amended claim at a concrete ledger (existing `Taipei`
row with count 5) and at the empty ledger. -/
theorem claim_C3_witness :
    upsertSyncSuccess sampleLedger "Taipei" 1 3 "Taipei" =
      some { last_sync_at := 1, records_synced := 3,
             status := "success", error_message := none }
    ∧ upsertSyncFailed sampleLedger "Taipei" 1 "boom" "Taipei" =
      some { last_sync_at := 1, records_synced := 5,
             status := "failed", error_message := some "boom" }
    ∧ upsertSyncFailed emptyLedger "Taipei" 1 "boom" "Taipei" =
      some { last_sync_at := 1, records_synced := 0,
             status := "failed", error_message := some "boom" } := by
  refine ⟨(claim_C3_ledger_overwrite sampleLedger "Taipei" 1 3 "boom").1, ?_, ?_⟩
  · exact (claim_C3_ledger_overwrite sampleLedger "Taipei" 1 3 "boom").2.2
      { last_sync_at := 0, records_synced := 5, status := "success", error_message := none }
      rfl
  · exact (claim_C3_ledger_overwrite emptyLedger "Taipei" 1 3 "boom").2.1 rfl

/-! ## Claim C2 -/

/-- C2 (amended). For a parseable timestamp with an explicit offset
(`Z` = offset 0, `+08:00` = offset 28800 s), both merges store a
timezone-**naive** datetime — that part of the claim holds — but its
value is the literal local-clock reading with the offset simply
discarded, **not** converted to UTC: the stored value equals the instant
expressed in UTC exactly when the offset is zero. -/
theorem claim_C2_timestamp_offset_dropped
    (prev : Option IsoDatetime) (clock off : Int) :
    mergeDataUpdatedAt prev (some (.wellFormed ⟨clock, some off⟩)) = some ⟨clock, none⟩
    ∧ (mergeDataUpdatedAt prev (some (.wellFormed ⟨clock, some off⟩)) =
        some ⟨toUtcInstant ⟨clock, some off⟩, none⟩ ↔ off = 0)
    ∧ (∀ (lot : ParsedLot) (m : String → Option ParkAvailability) avail,
        m lot.park_id = some avail →
        avail.DataCollectTime = some (.wellFormed ⟨clock, some off⟩) →
        (merge_availability_parking lot m).data_updated_at = some ⟨clock, none⟩)
    ∧ (∀ (station : ParsedStation) (m : String → Option StationAvailability) avail,
        m station.station_id = some avail →
        avail.UpdateTime = some (.wellFormed ⟨clock, some off⟩) →
        (merge_availability_charging station m).data_updated_at = some ⟨clock, none⟩) := by
  have hbase :
      mergeDataUpdatedAt prev (some (.wellFormed ⟨clock, some off⟩)) = some ⟨clock, none⟩ := by
    simp [mergeDataUpdatedAt, fromisoformat]
  refine ⟨hbase, ?_, ?_, ?_⟩
  · rw [hbase]
    simp only [Option.some.injEq, IsoDatetime.mk.injEq, toUtcInstant, Option.getD_some]
    constructor
    · rintro ⟨h, -⟩
      omega
    · rintro rfl
      simp
  · intro lot m avail hm ht
    simp only [merge_availability_parking, hm, ht]
    simp [mergeDataUpdatedAt, fromisoformat]
  · intro station m avail hm ht
    simp only [merge_availability_charging, hm, ht]
    simp [mergeDataUpdatedAt, fromisoformat]

/-- C2 counterexample. A `+08:00` timestamp (offset 28800 s, local clock
43200): the merge stores the naive local-clock value 43200, not the UTC
instant 14400 the claim requires. -/
theorem claim_C2_counterexample :
    mergeDataUpdatedAt none (some (.wellFormed ⟨43200, some 28800⟩)) ≠
      some ⟨toUtcInstant ⟨43200, some 28800⟩, none⟩
    ∧ mergeDataUpdatedAt none (some (.wellFormed ⟨43200, some 28800⟩)) =
      some ⟨43200, none⟩
    ∧ toUtcInstant ⟨43200, some 28800⟩ = 14400 := by
  exact ⟨by decide, by decide, by decide⟩

/-- C2 witness: the amended claim at the concrete `+08:00` record of
`sampleParkAvail` / `sampleStationAvail`, and the zero-offset (`Z`)
case where the stored value does equal the UTC instant. -/
theorem claim_C2_witness :
    mergeDataUpdatedAt none (some (.wellFormed ⟨43200, some 28800⟩)) = some ⟨43200, none⟩
    ∧ mergeDataUpdatedAt none (some (.wellFormed ⟨43200, some 0⟩)) =
        some ⟨toUtcInstant ⟨43200, some 0⟩, none⟩
    ∧ (merge_availability_parking sampleLot sampleParkAvailMap).data_updated_at =
        some ⟨43200, none⟩
    ∧ (merge_availability_charging sampleStation sampleStationAvailMap).data_updated_at =
        some ⟨43200, none⟩ := by
  refine ⟨(claim_C2_timestamp_offset_dropped none 43200 28800).1, ?_, ?_, ?_⟩
  · exact (claim_C2_timestamp_offset_dropped none 43200 0).2.1.mpr rfl
  · exact (claim_C2_timestamp_offset_dropped none 43200 28800).2.2.1
      sampleLot sampleParkAvailMap sampleParkAvail rfl rfl
  · exact (claim_C2_timestamp_offset_dropped none 43200 28800).2.2.2
      sampleStation sampleStationAvailMap sampleStationAvail rfl rfl

/-! ## Claim C6 -/

/-- C6 (amended). Both normalizers prefer the primary (`Zh_tw`) value,
then the secondary (`En`), treating `None` and the empty string as
unusable. The **charging** normalizer falls back to `"Unknown"` for the
name in every no-usable-value case (absent field, empty plain string,
exhausted language map), as claimed. The **parking** normalizer falls
back to `"Unknown"` only for an absent name field or an exhausted
language map; an empty *plain-string* name is kept as `""` (see the
counterexample). All other text fields fall back to the empty string. -/
theorem claim_C6_name_fallback
    (raw : RawCarPark) (raws : RawStation) (city : String) :
    (∀ zh en fb z, zh = some z → z ≠ "" → resolveLocalized zh en fb = z)
    ∧ (∀ en fb t, en = some t → t ≠ "" →
        resolveLocalized none en fb = t ∧ resolveLocalized (some "") en fb = t)
    ∧ (∀ fb, resolveLocalized none none fb = fb
        ∧ resolveLocalized (some "") (some "") fb = fb)
    ∧ (raw.CarParkName = .absent → (parse_parking_lot raw city).name = "Unknown")
    ∧ (∀ zh en, raw.CarParkName = .localized zh en →
        (parse_parking_lot raw city).name = resolveLocalized zh en "Unknown")
    ∧ (∀ s, raw.CarParkName = .plain s → (parse_parking_lot raw city).name = s)
    ∧ (raws.StationName = .absent → (parse_charging_station raws city).name = "Unknown")
    ∧ (raws.StationName = .plain "" → (parse_charging_station raws city).name = "Unknown")
    ∧ (∀ zh en, raws.StationName = .localized zh en →
        (parse_charging_station raws city).name = resolveLocalized zh en "Unknown")
    ∧ (∀ s, s ≠ "" → raws.StationName = .plain s →
        (parse_charging_station raws city).name = s)
    ∧ (raw.Address = .absent → (parse_parking_lot raw city).address = "")
    ∧ (∀ zh en, raw.Address = .localized zh en →
        (parse_parking_lot raw city).address = resolveLocalized zh en "")
    ∧ (raw.FareDescription = .absent → (parse_parking_lot raw city).fare_description = "")
    ∧ (raws.Address = .absent → (parse_charging_station raws city).address = "") := by
  refine ⟨?_, ?_, ?_, ?_, ?_, ?_, ?_, ?_, ?_, ?_, ?_, ?_, ?_, ?_⟩
  · rintro zh en fb z rfl hz
    simp [resolveLocalized, hz]
  · rintro en fb t rfl ht
    exact ⟨by simp [resolveLocalized, ht], by simp [resolveLocalized, ht]⟩
  · intro fb
    exact ⟨rfl, rfl⟩
  · intro h
    simp [parse_parking_lot, resolveTextDictDefault, h, resolveLocalized]
  · intro zh en h
    simp [parse_parking_lot, resolveTextDictDefault, h]
  · intro s h
    simp [parse_parking_lot, resolveTextDictDefault, h]
  · intro h
    simp [parse_charging_station, h, resolveLocalized]
  · intro h
    simp [parse_charging_station, h]
  · intro zh en h
    simp [parse_charging_station, h]
  · intro s hs h
    simp [parse_charging_station, h, hs]
  · intro h
    simp [parse_parking_lot, resolveTextDictDefault, h, resolveLocalized]
  · intro zh en h
    simp [parse_parking_lot, resolveTextDictDefault, h]
  · intro h
    simp [parse_parking_lot, resolveTextDictDefault, h, resolveLocalized]
  · intro h
    simp [parse_charging_station, resolveTextDictDefault, h, resolveLocalized]

/-- C6 counterexample. A raw parking lot whose `CarParkName` is the empty
plain string: the claim requires the name to fall back to `"Unknown"`,
but `parse_parking_lot` has no truthiness re-check for plain strings and
keeps `""`. -/
theorem claim_C6_counterexample :
    (parse_parking_lot rawEmptyName "Taipei").name = ""
    ∧ (parse_parking_lot rawEmptyName "Taipei").name ≠ "Unknown" := by
  exact ⟨rfl, by decide⟩

/-- C6 witness: the amended claim at concrete raw records covering every
fallback case. -/
theorem claim_C6_witness :
    resolveLocalized (some "ZH") (some "EN") "fb" = "ZH"
    ∧ resolveLocalized none (some "EN") "fb" = "EN"
    ∧ resolveLocalized (some "") (some "EN") "fb" = "EN"
    ∧ resolveLocalized none none "fb" = "fb"
    ∧ resolveLocalized (some "") (some "") "fb" = "fb"
    ∧ (parse_parking_lot rawAbsentName "Taipei").name = "Unknown"
    ∧ (parse_parking_lot rawLocName "Taipei").name =
        resolveLocalized (some "ZH") (some "EN") "Unknown"
    ∧ (parse_parking_lot rawEmptyName "Taipei").name = ""
    ∧ (parse_charging_station rawsAbsent "Taipei").name = "Unknown"
    ∧ (parse_charging_station rawsPlainEmpty "Taipei").name = "Unknown"
    ∧ (parse_charging_station rawsPlainName "Taipei").name = "Sta"
    ∧ (parse_parking_lot rawAbsentName "Taipei").address = ""
    ∧ (parse_parking_lot rawLocName "Taipei").address = resolveLocalized none none ""
    ∧ (parse_parking_lot rawAbsentName "Taipei").fare_description = ""
    ∧ (parse_charging_station rawsAbsent "Taipei").address = "" := by
  have h1 := claim_C6_name_fallback rawAbsentName rawsAbsent "Taipei"
  have h2 := claim_C6_name_fallback rawLocName rawsPlainEmpty "Taipei"
  have h3 := claim_C6_name_fallback rawEmptyName rawsPlainName "Taipei"
  refine ⟨h1.1 (some "ZH") (some "EN") "fb" "ZH" rfl (by decide),
    (h1.2.1 (some "EN") "fb" "EN" rfl (by decide)).1,
    (h1.2.1 (some "EN") "fb" "EN" rfl (by decide)).2,
    (h1.2.2.1 "fb").1, (h1.2.2.1 "fb").2,
    h1.2.2.2.1 rfl,
    h2.2.2.2.2.1 (some "ZH") (some "EN") rfl,
    h3.2.2.2.2.2.1 "" rfl,
    h1.2.2.2.2.2.2.1 rfl,
    h2.2.2.2.2.2.2.2.1 rfl,
    h3.2.2.2.2.2.2.2.2.2.1 "Sta" (by decide) rfl,
    h1.2.2.2.2.2.2.2.2.2.2.1 rfl,
    h2.2.2.2.2.2.2.2.2.2.2.2.1 none none rfl,
    h1.2.2.2.2.2.2.2.2.2.2.2.2.1 rfl,
    h1.2.2.2.2.2.2.2.2.2.2.2.2.2 rfl⟩

/-! ## Claim C9 -/

/-- C9 (confirmed). Whenever a station has a matching connector-status
entry, the charging merge overwrites `available_chargers` with the count
of connectors whose `Status` equals `"Available"`; a missing or empty
`Connectors` list yields the count 0, never an untouched field. -/
theorem claim_C9_available_chargers_overwrite
    (station : ParsedStation) (m : String → Option StationAvailability)
    (avail : StationAvailability) (h : m station.station_id = some avail) :
    (merge_availability_charging station m).available_chargers =
      some (countAvailableConnectors (avail.Connectors.getD []))
    ∧ (avail.Connectors = none ∨ avail.Connectors = some [] →
        (merge_availability_charging station m).available_chargers = some 0) := by
  constructor
  · simp [merge_availability_charging, h]
  · rintro (hc | hc) <;>
      simp [merge_availability_charging, h, hc, countAvailableConnectors]

/-- C9 witness: the claim at a station with an empty `Connectors` entry
(count forced to 0) and at one with a three-connector entry of which one
is `Available`. -/
theorem claim_C9_witness :
    (merge_availability_charging sampleStation sampleStationAvailMap).available_chargers =
      some 0
    ∧ (merge_availability_charging sampleStation sampleStationAvailMap2).available_chargers =
      some 1 := by
  constructor
  · exact (claim_C9_available_chargers_overwrite sampleStation sampleStationAvailMap
      sampleStationAvail rfl).2 (Or.inr rfl)
  · exact (claim_C9_available_chargers_overwrite sampleStation sampleStationAvailMap2
      sampleStationAvail2 rfl).1

/-! ## Claim C10 -/

/-- C10 (amended). A missing or empty `Connectors` list yields
`total_chargers = none` and `charger_types = none` (never 0 or `""`), and
for a non-empty list `total_chargers` is the list length and
`charger_types` is the comma-join of the de-duplicated non-empty
`ConnectorType` values — **provided at least one connector has a
non-empty type**; when every type is missing or empty, `charger_types`
is `none` rather than the empty join `""` the claim implies (see the
counterexample). -/
theorem claim_C10_connector_aggregation (data : RawStation) (city : String) :
    (data.Connectors = none ∨ data.Connectors = some [] →
      (parse_charging_station data city).total_chargers = none
      ∧ (parse_charging_station data city).charger_types = none)
    ∧ (∀ conns, data.Connectors = some conns → conns ≠ [] →
        (parse_charging_station data city).total_chargers = some conns.length
        ∧ (connectorTypesOf conns ≠ [] →
            (parse_charging_station data city).charger_types =
              some (String.intercalate ", " (connectorTypesOf conns).dedup))
        ∧ (connectorTypesOf conns = [] →
            (parse_charging_station data city).charger_types = none)) := by
  constructor
  · rintro (hc | hc) <;> simp [parse_charging_station, hc, connectorTypesOf]
  · intro conns hc hne
    refine ⟨?_, ?_, ?_⟩
    · simp [parse_charging_station, hc, List.length_pos.2 hne]
    · intro ht
      simp [parse_charging_station, hc, ht]
    · intro ht
      simp [parse_charging_station, hc, ht]

/-- C10 counterexample. A station with one connector whose
`ConnectorType` is the empty string: the `Connectors` list is non-empty,
so the claim makes `charger_types` the comma-join of the (empty) set of
non-empty type values, i.e. `some ""`; the code yields `none`. -/
theorem claim_C10_counterexample :
    (parse_charging_station rawsEmptyTypeConn "Taipei").total_chargers = some 1
    ∧ (parse_charging_station rawsEmptyTypeConn "Taipei").charger_types = none
    ∧ (parse_charging_station rawsEmptyTypeConn "Taipei").charger_types ≠ some "" := by
  exact ⟨rfl, rfl, by decide⟩

/-- C10 witness: the amended claim at a missing list, and at a
three-connector list with a duplicated type (joined de-duplicated). -/
theorem claim_C10_witness :
    (parse_charging_station rawsAbsent "Taipei").total_chargers = none
    ∧ (parse_charging_station rawsAbsent "Taipei").charger_types = none
    ∧ (parse_charging_station rawsTypedConns "Taipei").total_chargers = some 3
    ∧ (parse_charging_station rawsTypedConns "Taipei").charger_types =
        some "CHAdeMO, CCS2" := by
  have h1 := (claim_C10_connector_aggregation rawsAbsent "Taipei").1 (Or.inl rfl)
  have h2 := (claim_C10_connector_aggregation rawsTypedConns "Taipei").2
    [⟨some "CCS2"⟩, ⟨some "CHAdeMO"⟩, ⟨some "CCS2"⟩] rfl (by decide)
  refine ⟨h1.1, h1.2, h2.1, ?_⟩
  have h3 := h2.2.1 (by decide)
  rw [h3]
  decide

/-! ## Lemmas about radians, atan2 and the haversine formula -/

lemma radians_sub (x y : ℝ) : radians (x - y) = radians x - radians y := by
  unfold radians
  ring

lemma radians_zero : radians 0 = 0 := by
  unfold radians
  ring

lemma abs_radians (x : ℝ) : |radians x| = |x| * Real.pi / 180 := by
  unfold radians
  rw [abs_div, abs_mul, abs_of_pos Real.pi_pos]
  norm_num

lemma atan2_sin_cos (θ : ℝ) (h0 : 0 ≤ θ) (h1 : θ ≤ Real.pi / 2) :
    atan2 (Real.sin θ) (Real.cos θ) = θ := by
  rcases lt_or_eq_of_le h1 with h | h
  · have hc : 0 < Real.cos θ :=
      Real.cos_pos_of_mem_Ioo ⟨by linarith [Real.pi_pos], h⟩
    unfold atan2
    rw [if_pos hc, ← Real.tan_eq_sin_div_cos,
      Real.arctan_tan (by linarith [Real.pi_pos]) h]
  · subst h
    unfold atan2
    rw [Real.cos_pi_div_two, Real.sin_pi_div_two]
    norm_num

lemma atan2_sqrt_arcsin (a : ℝ) (h0 : 0 ≤ a) (h1 : a ≤ 1) :
    atan2 (Real.sqrt a) (Real.sqrt (1 - a)) = Real.arcsin (Real.sqrt a) := by
  rcases lt_or_eq_of_le h1 with h | h
  · have hpos : 0 < Real.sqrt (1 - a) := Real.sqrt_pos.2 (by linarith)
    have hmem : Real.sqrt a ∈ Set.Ioo (-1 : ℝ) 1 := by
      constructor
      · have := Real.sqrt_nonneg a
        linarith
      · have := Real.sqrt_lt_sqrt h0 h
        rwa [Real.sqrt_one] at this
    unfold atan2
    rw [if_pos hpos, Real.arcsin_eq_arctan hmem, Real.sq_sqrt h0]
  · subst h
    unfold atan2
    norm_num [Real.arcsin_one]

lemma hav_a_le_one (lat1 lon1 lat2 lon2 : ℝ) : hav_a lat1 lon1 lat2 lon2 ≤ 1 := by
  unfold hav_a
  rw [radians_sub lat2 lat1]
  set φ1 := radians lat1
  set φ2 := radians lat2
  set s := Real.sin ((φ2 - φ1) / 2) with hs
  set t := Real.sin (radians (lon2 - lon1) / 2) with ht
  have ht2 : t ^ 2 ≤ 1 := by
    nlinarith [Real.sin_sq_add_cos_sq (radians (lon2 - lon1) / 2),
      sq_nonneg (Real.cos (radians (lon2 - lon1) / 2))]
  have e1 : Real.cos (φ1 - φ2) =
      Real.cos φ1 * Real.cos φ2 + Real.sin φ1 * Real.sin φ2 := Real.cos_sub _ _
  have e2 : Real.cos (φ1 + φ2) =
      Real.cos φ1 * Real.cos φ2 - Real.sin φ1 * Real.sin φ2 := Real.cos_add _ _
  have e3 : Real.cos ((φ2 - φ1) / 2) ^ 2 = 1 / 2 + Real.cos (φ2 - φ1) / 2 := by
    have h2 : 2 * ((φ2 - φ1) / 2) = φ2 - φ1 := by ring
    have h3 := Real.cos_sq ((φ2 - φ1) / 2)
    rwa [h2] at h3
  have e4 : Real.cos (φ2 - φ1) = Real.cos (φ1 - φ2) := by
    rw [show φ2 - φ1 = -(φ1 - φ2) by ring, Real.cos_neg]
  have e5 : Real.cos (φ1 + φ2) ≤ 1 := Real.cos_le_one _
  have hsum : s ^ 2 + Real.cos ((φ2 - φ1) / 2) ^ 2 = 1 := Real.sin_sq_add_cos_sq _
  rcases le_or_lt 0 (Real.cos φ1 * Real.cos φ2) with h | h
  · nlinarith [sq_nonneg t]
  · nlinarith [sq_nonneg t, sq_nonneg (Real.cos ((φ2 - φ1) / 2))]

lemma hav_a_nonneg (lat1 lon1 lat2 lon2 : ℝ)
    (h1 : 0 ≤ Real.cos (radians lat1)) (h2 : 0 ≤ Real.cos (radians lat2)) :
    0 ≤ hav_a lat1 lon1 lat2 lon2 := by
  unfold hav_a
  have hm := mul_nonneg (mul_nonneg h1 h2)
    (sq_nonneg (Real.sin (radians (lon2 - lon1) / 2)))
  nlinarith [sq_nonneg (Real.sin (radians (lat2 - lat1) / 2))]

lemma haversine_eq_arcsin (lat1 lon1 lat2 lon2 : ℝ)
    (h0 : 0 ≤ hav_a lat1 lon1 lat2 lon2) (h1 : hav_a lat1 lon1 lat2 lon2 ≤ 1) :
    haversine_distance lat1 lon1 lat2 lon2 =
      12742000 * Real.arcsin (Real.sqrt (hav_a lat1 lon1 lat2 lon2)) := by
  unfold haversine_distance
  rw [atan2_sqrt_arcsin _ h0 h1]
  ring

lemma haversine_of_hav_eq_sin (lat1 lon1 lat2 lon2 d : ℝ)
    (ha : hav_a lat1 lon1 lat2 lon2 = Real.sin (radians d / 2) ^ 2)
    (h0 : 0 ≤ d) (h1 : d ≤ 180) :
    haversine_distance lat1 lon1 lat2 lon2 = 6371000 * radians d := by
  set θ := radians d / 2 with hθdef
  have hrad : radians d ≤ Real.pi := by
    unfold radians
    nlinarith [Real.pi_pos]
  have hθ0 : 0 ≤ θ := by
    rw [hθdef]
    unfold radians
    positivity
  have hθπ : θ ≤ Real.pi / 2 := by
    rw [hθdef]
    linarith
  have hs : 0 ≤ Real.sin θ :=
    Real.sin_nonneg_of_nonneg_of_le_pi hθ0 (by linarith [Real.pi_pos])
  have hc : 0 ≤ Real.cos θ :=
    Real.cos_nonneg_of_mem_Icc ⟨by linarith [Real.pi_pos], hθπ⟩
  have hcos2 : 1 - Real.sin θ ^ 2 = Real.cos θ ^ 2 := by
    nlinarith [Real.sin_sq_add_cos_sq θ]
  unfold haversine_distance
  rw [ha, Real.sqrt_sq hs, hcos2, Real.sqrt_sq hc, atan2_sin_cos θ hθ0 hθπ]
  rw [hθdef]
  ring

lemma haversine_meridian (t lon d : ℝ) (h0 : 0 ≤ d) (h1 : d ≤ 180) :
    haversine_distance t lon (t + d) lon = 6371000 * radians d := by
  refine haversine_of_hav_eq_sin _ _ _ _ d ?_ h0 h1
  unfold hav_a
  rw [show t + d - t = d by ring, sub_self lon, radians_zero]
  norm_num [Real.sin_zero]

lemma haversine_equator (lon d : ℝ) (h0 : 0 ≤ d) (h1 : d ≤ 180) :
    haversine_distance 0 lon 0 (lon + d) = 6371000 * radians d := by
  refine haversine_of_hav_eq_sin _ _ _ _ d ?_ h0 h1
  unfold hav_a
  rw [sub_self (0 : ℝ), radians_zero, show lon + d - lon = d by ring]
  norm_num [Real.sin_zero, Real.cos_zero]

lemma haversine_self (p q : ℝ) : haversine_distance p q p q = 0 := by
  have h := haversine_meridian p q 0 le_rfl (by norm_num)
  rw [add_zero] at h
  rw [h, radians_zero]
  ring

lemma hav_a_symm (lat1 lon1 lat2 lon2 : ℝ) :
    hav_a lat1 lon1 lat2 lon2 = hav_a lat2 lon2 lat1 lon1 := by
  unfold hav_a
  rw [show lat1 - lat2 = -(lat2 - lat1) by ring, show lon1 - lon2 = -(lon2 - lon1) by ring]
  unfold radians
  rw [show -(lat2 - lat1) * Real.pi / 180 = -((lat2 - lat1) * Real.pi / 180) by ring,
    show -(lon2 - lon1) * Real.pi / 180 = -((lon2 - lon1) * Real.pi / 180) by ring,
    neg_div, neg_div, Real.sin_neg, Real.sin_neg]
  ring

lemma haversine_symm (lat1 lon1 lat2 lon2 : ℝ) :
    haversine_distance lat1 lon1 lat2 lon2 = haversine_distance lat2 lon2 lat1 lon1 := by
  unfold haversine_distance
  rw [hav_a_symm]

lemma radians_mono {x y : ℝ} (h : x ≤ y) : radians x ≤ radians y := by
  unfold radians
  nlinarith [Real.pi_pos]

/-! ## Claim C7 -/

/-- C7 (confirmed). The haversine distance is symmetric, zero on equal
points, and monotonically non-decreasing as one coordinate moves away
along a great circle — here formalized along a meridian (latitude moving
away at fixed longitude) and along the equator (longitude moving away at
latitude 0), for displacements up to 180° (beyond the antipode one is
moving back closer, so the bound is inherent to a sphere). -/
theorem claim_C7_distance_algebra :
    (∀ lat1 lon1 lat2 lon2 : ℝ,
      haversine_distance lat1 lon1 lat2 lon2 = haversine_distance lat2 lon2 lat1 lon1)
    ∧ (∀ lat lon : ℝ, haversine_distance lat lon lat lon = 0)
    ∧ (∀ lat lon d1 d2 : ℝ, 0 ≤ d1 → d1 ≤ d2 → d2 ≤ 180 →
        haversine_distance lat lon (lat + d1) lon ≤
          haversine_distance lat lon (lat + d2) lon
        ∧ haversine_distance 0 lon 0 (lon + d1) ≤
          haversine_distance 0 lon 0 (lon + d2)) := by
  refine ⟨haversine_symm, haversine_self, ?_⟩
  intro lat lon d1 d2 h0 h12 h2
  have e1 := haversine_meridian lat lon d1 h0 (le_trans h12 h2)
  have e2 := haversine_meridian lat lon d2 (le_trans h0 h12) h2
  have e3 := haversine_equator lon d1 h0 (le_trans h12 h2)
  have e4 := haversine_equator lon d2 (le_trans h0 h12) h2
  have hm := radians_mono h12
  constructor
  · rw [e1, e2]
    linarith
  · rw [e3, e4]
    linarith

/-- C7 witness: symmetry and self-distance at Taipei's coordinates, and
meridian/equator monotonicity at displacements 10° ≤ 30° ≤ 180°. -/
theorem claim_C7_witness :
    haversine_distance 25 121 24 120 = haversine_distance 24 120 25 121
    ∧ haversine_distance 25 121 25 121 = 0
    ∧ ((0 : ℝ) ≤ 10 ∧ (10 : ℝ) ≤ 30 ∧ (30 : ℝ) ≤ 180)
    ∧ haversine_distance 25 121 (25 + 10) 121 ≤ haversine_distance 25 121 (25 + 30) 121
    ∧ haversine_distance 0 121 0 (121 + 10) ≤ haversine_distance 0 121 0 (121 + 30) := by
  refine ⟨claim_C7_distance_algebra.1 25 121 24 120,
    claim_C7_distance_algebra.2.1 25 121,
    ⟨by norm_num, by norm_num, by norm_num⟩, ?_, ?_⟩
  · exact (claim_C7_distance_algebra.2.2 25 121 10 30
      (by norm_num) (by norm_num) (by norm_num)).1
  · exact (claim_C7_distance_algebra.2.2 25 121 10 30
      (by norm_num) (by norm_num) (by norm_num)).2

/-! ## Lemmas about the nearby query -/

lemma candidateStep_some_spec {lat lng radius : ℝ} {f : Facility} {p : Facility × ℝ}
    (h : candidateStep lat lng radius f = some p) :
    ∃ a b, f.latitude = some a ∧ f.longitude = some b ∧ a ≠ 0 ∧ b ≠ 0 ∧
      haversine_distance lat lng a b ≤ radius ∧
      p = (f, haversine_distance lat lng a b) := by
  rcases f with ⟨ola, olo⟩
  rcases ola with _ | a
  · simp [candidateStep] at h
  · rcases olo with _ | b
    · simp [candidateStep] at h
    · simp only [candidateStep] at h
      split_ifs at h with h1 h2
      · cases h
        exact ⟨a, b, rfl, rfl, h1.1, h1.2, h2, rfl⟩

lemma get_nearby_reduce (lat lng radius : ℝ) (lim : ℕ) (facilities : List Facility) :
    get_nearby lat lng radius lim facilities =
      (((facilities.filter
          (inBoundingBox (lat - radius / 111000) (lat + radius / 111000)
            (lng - radius / (111000 * Real.cos (radians lat)))
            (lng + radius / (111000 * Real.cos (radians lat))))).filterMap
        (candidateStep lat lng radius)).mergeSort
          (fun p q => decide (p.2 ≤ q.2))).take lim := rfl

lemma get_nearby_mem_spec {lat lng radius : ℝ} {lim : ℕ} {facilities : List Facility}
    {p : Facility × ℝ} (hp : p ∈ get_nearby lat lng radius lim facilities) :
    ∃ a b, p.1.latitude = some a ∧ p.1.longitude = some b ∧ a ≠ 0 ∧ b ≠ 0 ∧
      p.2 = haversine_distance lat lng a b ∧ p.2 ≤ radius := by
  rw [get_nearby_reduce] at hp
  have h1 := List.mem_of_mem_take hp
  have h2 := (List.mergeSort_perm _ _).mem_iff.1 h1
  rcases List.mem_filterMap.1 h2 with ⟨f, hf, hstep⟩
  rcases candidateStep_some_spec hstep with ⟨a, b, ha, hb, ha0, hb0, hd, rfl⟩
  exact ⟨a, b, ha, hb, ha0, hb0, rfl, hd⟩

lemma get_nearby_sorted (lat lng radius : ℝ) (lim : ℕ) (facilities : List Facility) :
    List.Sorted (fun p q : Facility × ℝ => p.2 ≤ q.2)
      (get_nearby lat lng radius lim facilities) := by
  rw [get_nearby_reduce]
  have hsort := @List.sorted_mergeSort (Facility × ℝ)
    (fun p q => decide (p.2 ≤ q.2))
    (fun a b c hab hbc =>
      decide_eq_true (le_trans (of_decide_eq_true hab) (of_decide_eq_true hbc)))
    (fun a b => by
      rcases le_total a.2 b.2 with h | h <;> simp [h])
    ((facilities.filter
        (inBoundingBox (lat - radius / 111000) (lat + radius / 111000)
          (lng - radius / (111000 * Real.cos (radians lat)))
          (lng + radius / (111000 * Real.cos (radians lat))))).filterMap
      (candidateStep lat lng radius))
  have hpair := hsort.imp (fun h => of_decide_eq_true h)
  exact hpair.sublist (List.take_sublist _ _)

lemma get_nearby_length (lat lng radius : ℝ) (lim : ℕ) (facilities : List Facility) :
    (get_nearby lat lng radius lim facilities).length ≤ lim := by
  rw [get_nearby_reduce]
  rw [List.length_take]
  exact min_le_left _ _

lemma get_nearby_singleton_self (lat lng radius : ℝ) (lim : ℕ)
    (h1 : lat ≠ 0) (h2 : lng ≠ 0) (hr : 0 ≤ radius)
    (hc : 0 < Real.cos (radians lat)) (hlim : 1 ≤ lim) :
    get_nearby lat lng radius lim [⟨some lat, some lng⟩] =
      [(⟨some lat, some lng⟩, 0)] := by
  rw [get_nearby_reduce]
  have hlatr : 0 ≤ radius / 111000 := by positivity
  have hlngr : 0 ≤ radius / (111000 * Real.cos (radians lat)) := by positivity
  have hbox : inBoundingBox (lat - radius / 111000) (lat + radius / 111000)
      (lng - radius / (111000 * Real.cos (radians lat)))
      (lng + radius / (111000 * Real.cos (radians lat)))
      ⟨some lat, some lng⟩ = true := by
    simp only [inBoundingBox, Bool.and_eq_true, decide_eq_true_eq]
    refine ⟨⟨⟨by linarith, by linarith⟩, by linarith⟩, by linarith⟩
  have hstep : candidateStep lat lng radius ⟨some lat, some lng⟩ =
      some (⟨some lat, some lng⟩, 0) := by
    simp only [candidateStep, haversine_self]
    rw [if_pos ⟨h1, h2⟩, if_pos hr]
  rw [List.filter_singleton, hbox]
  simp only [cond_true, List.filterMap_cons, List.filterMap_nil, hstep]
  rw [List.mergeSort_singleton]
  exact List.take_of_length_le (by simpa using hlim)

lemma cos_radians_pos {l : ℝ} (h : |l| < 90) : 0 < Real.cos (radians l) := by
  have habs : |radians l| < Real.pi / 2 := by
    rw [abs_radians]
    nlinarith [Real.pi_pos, abs_nonneg l]
  exact Real.cos_pos_of_mem_Ioo ⟨(abs_lt.1 habs).1, (abs_lt.1 habs).2⟩

/-! ## Claim C4 -/

/-- C4 (confirmed). For every query point, radius, limit and stored
facility set, the nearby operation (shared by the parking and charging
endpoints) returns only pairs whose second component is the true
haversine distance of the returned facility's coordinates to the query
point and is ≤ the radius; the returned sequence is sorted ascending by
that distance; and its length is at most the limit. -/
theorem claim_C4_nearby_contract :
    ∀ (lat lng radius : ℝ) (lim : ℕ) (facilities : List Facility),
      (∀ p ∈ get_nearby lat lng radius lim facilities,
        (∃ a b, p.1.latitude = some a ∧ p.1.longitude = some b ∧
          p.2 = haversine_distance lat lng a b) ∧ p.2 ≤ radius)
      ∧ List.Sorted (fun p q : Facility × ℝ => p.2 ≤ q.2)
          (get_nearby lat lng radius lim facilities)
      ∧ (get_nearby lat lng radius lim facilities).length ≤ lim := by
  intro lat lng radius lim facilities
  refine ⟨?_, get_nearby_sorted _ _ _ _ _, get_nearby_length _ _ _ _ _⟩
  intro p hp
  rcases get_nearby_mem_spec hp with ⟨a, b, ha, hb, -, -, hpd, hdr⟩
  exact ⟨⟨a, b, ha, hb, hpd⟩, hdr⟩

/-- C4 witness: a facility exactly at the query point (25, 121) with
radius 1000 and limit 20 — it is returned at distance 0, and the claim's
three conclusions hold at this concrete run. -/
theorem claim_C4_witness :
    ((⟨some 25, some 121⟩ : Facility), (0 : ℝ)) ∈
      get_nearby 25 121 1000 20 [⟨some 25, some 121⟩]
    ∧ ((∃ a b, (⟨some 25, some 121⟩ : Facility).latitude = some a ∧
        (⟨some 25, some 121⟩ : Facility).longitude = some b ∧
        (0 : ℝ) = haversine_distance 25 121 a b) ∧ (0 : ℝ) ≤ 1000)
    ∧ List.Sorted (fun p q : Facility × ℝ => p.2 ≤ q.2)
        (get_nearby 25 121 1000 20 [⟨some 25, some 121⟩])
    ∧ (get_nearby 25 121 1000 20 [⟨some 25, some 121⟩]).length ≤ 20 := by
  have hself := get_nearby_singleton_self 25 121 1000 20 (by norm_num) (by norm_num)
    (by norm_num) (cos_radians_pos (by rw [abs_of_pos] <;> norm_num)) (by norm_num)
  have hmem : ((⟨some 25, some 121⟩ : Facility), (0 : ℝ)) ∈
      get_nearby 25 121 1000 20 [⟨some 25, some 121⟩] := by
    rw [hself]
    exact List.mem_singleton_self _
  have h := claim_C4_nearby_contract 25 121 1000 20 [⟨some 25, some 121⟩]
  exact ⟨hmem, h.1 _ hmem, h.2.1, h.2.2⟩

/-! ## Claim C8 -/

/-- C8 (confirmed). A stored facility one of whose coordinates is exactly
0 (a falsy float, as opposed to `NULL`) is never returned by the nearby
operation, even when both coordinates are present and its distance is
within the radius: the post-query `if parking.latitude and
parking.longitude` truthiness check rejects it. -/
theorem claim_C8_zero_coordinate_excluded :
    ∀ (lat lng radius : ℝ) (lim : ℕ) (facilities : List Facility)
      (f : Facility) (d : ℝ),
      f.latitude = some 0 ∨ f.longitude = some 0 →
      (f, d) ∉ get_nearby lat lng radius lim facilities := by
  intro lat lng radius lim facilities f d h hmem
  rcases get_nearby_mem_spec hmem with ⟨a, b, ha, hb, ha0, hb0, -, -⟩
  rcases h with h | h
  · rw [h] at ha
    exact ha0 (Option.some.inj ha).symm
  · rw [h] at hb
    exact hb0 (Option.some.inj hb).symm

/-- C8 witness: a facility at latitude exactly 0 (longitude 121) is not
returned by a nearby query centred on it, at any stored distance pair. -/
theorem claim_C8_witness :
    ((⟨some 0, some 121⟩ : Facility).latitude = some 0
      ∨ (⟨some 0, some 121⟩ : Facility).longitude = some 0)
    ∧ ((⟨some 0, some 121⟩ : Facility), (0 : ℝ)) ∉
        get_nearby 0 121 1000 20 [⟨some 0, some 121⟩] := by
  exact ⟨Or.inl rfl,
    claim_C8_zero_coordinate_excluded 0 121 1000 20 [⟨some 0, some 121⟩] _ 0 (Or.inl rfl)⟩

/-! ## Lemmas for the bounding-box prefilter claim -/

lemma abs_sin_eq_sin_abs {x : ℝ} (h : |x| ≤ Real.pi) : |Real.sin x| = Real.sin |x| := by
  rcases le_or_lt 0 x with hx | hx
  · rw [abs_of_nonneg hx] at h ⊢
    rw [abs_of_nonneg (Real.sin_nonneg_of_nonneg_of_le_pi hx h)]
  · rw [abs_of_neg hx] at h ⊢
    have hx' : 0 ≤ -x := by linarith
    rw [show Real.sin x = -Real.sin (-x) by rw [Real.sin_neg]; ring, abs_neg,
      abs_of_nonneg (Real.sin_nonneg_of_nonneg_of_le_pi hx' h)]

lemma bounding_box_crux (c : ℝ) (h1 : 1 / 2 ≤ c) :
    39960000 ^ 2 * c ≤
      12742000 ^ 2 * Real.pi ^ 2 * (999999 / 1000000) ^ 2 *
        (c * (1 - (1 / 637) ^ 2 / 2) - 1 / 637) := by
  have hπ := Real.pi_gt_3141592
  have hπ2 : (3.141592 : ℝ) ^ 2 ≤ Real.pi ^ 2 := by nlinarith only [hπ, Real.pi_pos]
  have hu : (0 : ℝ) ≤ c * (1 - (1 / 637) ^ 2 / 2) - 1 / 637 := by linarith only [h1]
  have h3 : 12742000 ^ 2 * (3.141592 : ℝ) ^ 2 * (999999 / 1000000) ^ 2 *
        (c * (1 - (1 / 637) ^ 2 / 2) - 1 / 637) ≤
      12742000 ^ 2 * Real.pi ^ 2 * (999999 / 1000000) ^ 2 *
        (c * (1 - (1 / 637) ^ 2 / 2) - 1 / 637) := by
    linarith only [mul_nonneg (sub_nonneg.2 hπ2) hu]
  have h4 : 39960000 ^ 2 * c ≤
      12742000 ^ 2 * (3.141592 : ℝ) ^ 2 * (999999 / 1000000) ^ 2 *
        (c * (1 - (1 / 637) ^ 2 / 2) - 1 / 637) := by linarith only [h1]
  linarith only [h3, h4]

lemma lat_window_numeric (x radius : ℝ) (hx : 0 ≤ x)
    (h1 : x * Real.pi / 180 ≤ radius / 6371000) (hr : 0 < radius) :
    x ≤ radius / 111000 := by
  have hπ1 := Real.pi_gt_3141592
  nlinarith only [hx, h1, hr, hπ1]

lemma radius_sq_bound (radius c l s : ℝ)
    (hc1 : 1 / 2 ≤ c) (hr : 0 < radius)
    (hl : l * (39960000 * c) = radius * Real.pi) (hl0 : 0 < l)
    (hs : l * (999999 / 1000000) ≤ s) (hs0 : 0 ≤ s) :
    radius ^ 2 ≤ 12742000 ^ 2 * s ^ 2 *
      (c * (c * (1 - (1 / 637) ^ 2 / 2) - 1 / 637)) := by
  have hπ0 := Real.pi_pos
  have hcpos : (0 : ℝ) < c := by linarith only [hc1]
  have hcrux := bounding_box_crux c hc1
  have hupos : (0 : ℝ) < c * (1 - (1 / 637) ^ 2 / 2) - 1 / 637 := by linarith only [hc1]
  have hl2c : (0 : ℝ) ≤ l ^ 2 * c := by positivity
  have hsq : l ^ 2 * (39960000 * c) ^ 2 = (radius * Real.pi) ^ 2 := by
    rw [← mul_pow, hl]
  have h1 : radius ^ 2 * Real.pi ^ 2 ≤
      12742000 ^ 2 * Real.pi ^ 2 * (999999 / 1000000) ^ 2 *
        (c * (1 - (1 / 637) ^ 2 / 2) - 1 / 637) * (l ^ 2 * c) := by
    nlinarith only [mul_le_mul_of_nonneg_right hcrux hl2c, hsq]
  have h2 : (l * (999999 / 1000000)) ^ 2 ≤ s ^ 2 := by
    have := pow_le_pow_left (by positivity : (0 : ℝ) ≤ l * (999999 / 1000000)) hs 2
    exact this
  nlinarith only [h1, h2, mul_pos hπ0 hπ0,
    mul_nonneg (mul_nonneg (mul_nonneg (sq_nonneg (12742000 : ℝ))
      (sq_nonneg Real.pi)) (mul_pos hcpos hupos).le) (sub_nonneg.2 h2)]

/-! ## Claim C5 -/

set_option maxHeartbeats 1600000 in
/-- C5 (amended). For a query latitude within ±60° (a non-extreme range),
a facility latitude within ±90°, a radius in the endpoint's accepted
100–10000 m range, and query/facility longitudes that do not wrap the
antimeridian (`|Δlng| ≤ 180°`), every facility with both coordinates
present whose haversine distance to the query point is ≤ the radius lies
inside the computed latitude/longitude window, hence among the
candidates passed to the exact distance check. Without the
no-wraparound condition the prefilter has false negatives (see the
counterexample). -/
theorem claim_C5_bounding_box_no_false_negatives
    (lat lng radius a b : ℝ) (f : Facility)
    (hlat : |lat| ≤ 60) (ha90 : |a| ≤ 90)
    (hr1 : 100 ≤ radius) (hr2 : radius ≤ 10000)
    (hwrap : |b - lng| ≤ 180)
    (hfa : f.latitude = some a) (hfb : f.longitude = some b)
    (hd : haversine_distance lat lng a b ≤ radius) :
    |a - lat| ≤ radius / 111000
    ∧ |b - lng| ≤ radius / (111000 * Real.cos (radians lat))
    ∧ inBoundingBox (lat - radius / 111000) (lat + radius / 111000)
        (lng - radius / (111000 * Real.cos (radians lat)))
        (lng + radius / (111000 * Real.cos (radians lat))) f = true := by
  have hπ1 := Real.pi_gt_3141592
  have hπ2 := Real.pi_lt_3141593
  have hπ0 := Real.pi_pos
  set φ1 := radians lat with hφ1def
  set φ2 := radians a with hφ2def
  set c := Real.cos φ1 with hcdef
  -- angle bounds
  have hφ1abs : |φ1| ≤ Real.pi / 3 := by
    rw [hφ1def, abs_radians]
    nlinarith only [hlat, hπ0, abs_nonneg lat]
  have hφ2abs : |φ2| ≤ Real.pi / 2 := by
    rw [hφ2def, abs_radians]
    nlinarith only [ha90, hπ0, abs_nonneg a]
  have hc1 : 1 / 2 ≤ c := by
    have h := Real.cos_le_cos_of_nonneg_of_le_pi (abs_nonneg φ1) (by linarith) hφ1abs
    rw [Real.cos_abs, Real.cos_pi_div_three] at h
    exact h
  have hcpos : 0 < c := by linarith only [hc1]
  have hcle1 : c ≤ 1 := Real.cos_le_one _
  have hc2nn : 0 ≤ Real.cos φ2 :=
    Real.cos_nonneg_of_mem_Icc ⟨(abs_le.1 hφ2abs).1, (abs_le.1 hφ2abs).2⟩
  -- the haversine intermediate value
  have hA1 : hav_a lat lng a b ≤ 1 := hav_a_le_one lat lng a b
  have hA0 : 0 ≤ hav_a lat lng a b := hav_a_nonneg lat lng a b (by linarith) hc2nn
  set A := hav_a lat lng a b with hAdef
  have hA_struct : A = Real.sin (radians (a - lat) / 2) ^ 2 +
      c * Real.cos φ2 * Real.sin (radians (b - lng) / 2) ^ 2 := rfl
  have hr0 : (0 : ℝ) < radius := by linarith only [hr1]
  have hd2 : 12742000 * Real.arcsin (Real.sqrt A) ≤ radius := by
    rw [haversine_eq_arcsin lat lng a b hA0 hA1] at hd
    exact hd
  have harc : Real.arcsin (Real.sqrt A) ≤ radius / 12742000 := by linarith only [hd2]
  have hhalf : radius / 12742000 ≤ Real.pi / 2 := by linarith only [hr2, hπ1]
  have hsqA1 : Real.sqrt A ≤ 1 := Real.sqrt_le_one.mpr hA1
  set q := Real.sin (radius / 12742000) with hqdef
  have hq : Real.sqrt A ≤ q := by
    have h1 : Real.sqrt A = Real.sin (Real.arcsin (Real.sqrt A)) :=
      (Real.sin_arcsin (by linarith only [Real.sqrt_nonneg A]) hsqA1).symm
    rw [h1, hqdef]
    exact Real.strictMonoOn_sin.monotoneOn
      ⟨Real.neg_pi_div_two_le_arcsin _, Real.arcsin_le_pi_div_two _⟩
      ⟨by linarith only [hπ0, hr0], hhalf⟩ harc
  have hq0 : 0 ≤ q := by
    rw [hqdef]
    exact Real.sin_nonneg_of_nonneg_of_le_pi (by positivity) (by linarith only [hhalf, hπ0])
  have hqle : q ≤ radius / 12742000 := by
    rw [hqdef]
    exact Real.sin_le (by positivity)
  have hA_q : A ≤ q ^ 2 := by
    have h1 : A = Real.sqrt A ^ 2 := (Real.sq_sqrt hA0).symm
    rw [h1]
    exact pow_le_pow_left (Real.sqrt_nonneg A) hq 2
  -- latitude window
  set dphi := radians (a - lat) with hdphidef
  have hsin2 : Real.sin (dphi / 2) ^ 2 ≤ A := by
    rw [hA_struct]
    linarith only [mul_nonneg (mul_nonneg hcpos.le hc2nn)
      (sq_nonneg (Real.sin (radians (b - lng) / 2)))]
  have habs_s : |Real.sin (dphi / 2)| ≤ Real.sqrt A := by
    rw [← Real.sqrt_sq_eq_abs]
    exact Real.sqrt_le_sqrt hsin2
  have halat150 : |a - lat| ≤ 150 := by
    rcases abs_le.1 ha90 with ⟨h1, h2⟩
    rcases abs_le.1 hlat with ⟨h3, h4⟩
    exact abs_le.2 ⟨by linarith only [h1, h4], by linarith only [h2, h3]⟩
  have hdphi_pi : |dphi| ≤ Real.pi := by
    rw [hdphidef, abs_radians]
    nlinarith only [halat150, hπ0, abs_nonneg (a - lat)]
  have habs_half : |dphi / 2| ≤ Real.pi / 2 := by
    rw [abs_div, abs_two]
    linarith only [hdphi_pi]
  have hsin_abs_eq : |Real.sin (dphi / 2)| = Real.sin |dphi / 2| :=
    abs_sin_eq_sin_abs (by linarith only [habs_half, hπ0])
  have harcsin_half : |dphi / 2| ≤ radius / 12742000 := by
    have h1 : Real.arcsin |Real.sin (dphi / 2)| ≤ Real.arcsin (Real.sqrt A) :=
      Real.monotone_arcsin habs_s
    have h2 : Real.arcsin |Real.sin (dphi / 2)| = |dphi / 2| := by
      rw [hsin_abs_eq, Real.arcsin_sin (by linarith only [abs_nonneg (dphi / 2), hπ0])
        habs_half]
    rw [h2] at h1
    linarith only [h1, harc]
  have hdphi_bound : |dphi| ≤ radius / 6371000 := by
    rw [abs_div, abs_two] at harcsin_half
    linarith only [harcsin_half]
  have hlat_part : |a - lat| ≤ radius / 111000 := by
    refine lat_window_numeric _ _ (abs_nonneg _) ?_ hr0
    rw [hdphidef, abs_radians] at hdphi_bound
    exact hdphi_bound
  -- longitude window
  have hterm : c * Real.cos φ2 * Real.sin (radians (b - lng) / 2) ^ 2 ≤ A := by
    rw [hA_struct]
    linarith only [sq_nonneg (Real.sin (radians (a - lat) / 2))]
  have hφ2eq : φ2 = φ1 + dphi := by
    rw [hφ2def, hφ1def, hdphidef]
    unfold radians
    ring
  have hδ1 : radius / 6371000 ≤ 1 / 637 := by linarith only [hr2]
  have hδ0 : (0 : ℝ) ≤ radius / 6371000 := by positivity
  have hφ2abs2 : |φ2| ≤ |φ1| + radius / 6371000 := by
    rw [hφ2eq]
    have h1 := abs_add φ1 dphi
    linarith only [h1, hdphi_bound]
  have hsum_pi : |φ1| + radius / 6371000 ≤ Real.pi := by
    linarith only [hφ1abs, hδ1, hπ1]
  have hcos2_lb : Real.cos (|φ1| + radius / 6371000) ≤ Real.cos φ2 := by
    have h1 := Real.cos_le_cos_of_nonneg_of_le_pi (abs_nonneg φ2) hsum_pi hφ2abs2
    rwa [Real.cos_abs] at h1
  have hclb : c * (1 - (1 / 637) ^ 2 / 2) - 1 / 637 ≤
      Real.cos (|φ1| + radius / 6371000) := by
    rw [Real.cos_add, Real.cos_abs]
    have hcosδ : 1 - (1 / 637 : ℝ) ^ 2 / 2 ≤ Real.cos (radius / 6371000) := by
      have h1 := @Real.one_sub_sq_div_two_le_cos (radius / 6371000)
      nlinarith only [h1, hδ1, hδ0]
    have hsinδ1 : Real.sin (radius / 6371000) ≤ 1 / 637 := by
      have h1 := Real.sin_le hδ0
      linarith only [h1, hδ1]
    have hsinδ0 : 0 ≤ Real.sin (radius / 6371000) :=
      Real.sin_nonneg_of_nonneg_of_le_pi hδ0 (by linarith only [hδ1, hπ1])
    have hsinφ1 : 0 ≤ Real.sin |φ1| :=
      Real.sin_nonneg_of_nonneg_of_le_pi (abs_nonneg φ1)
        (by linarith only [hφ1abs, hπ0])
    have hsinφ2 : Real.sin |φ1| ≤ 1 := Real.sin_le_one _
    linarith only [mul_le_mul hsinφ2 hsinδ1 hsinδ0 (by norm_num : (0 : ℝ) ≤ 1),
      mul_le_mul_of_nonneg_left hcosδ hcpos.le]
  have hclb_pos : 0 < c * (1 - (1 / 637) ^ 2 / 2) - 1 / 637 := by linarith only [hc1]
  set l := radius * Real.pi / (39960000 * c) with hldef
  have hden_pos : (0 : ℝ) < 39960000 * c := mul_pos (by norm_num) hcpos
  have hl0 : 0 < l := by
    rw [hldef]
    exact div_pos (mul_pos hr0 hπ0) hden_pos
  have hl_le : l ≤ 1 / 500 := by
    rw [hldef, div_le_div_iff hden_pos (by norm_num : (0 : ℝ) < 500)]
    nlinarith only [hπ2, hπ0, hr2, hr0, hc1]
  have hsl := Real.sin_gt_sub_cube hl0 (by linarith only [hl_le] : l ≤ 1)
  have hsl_lb : l * (999999 / 1000000) ≤ Real.sin l := by
    nlinarith only [hsl, hl0, hl_le,
      mul_le_mul hl_le hl_le hl0.le (by norm_num : (0 : ℝ) ≤ 1 / 500)]
  have hsl0 : 0 ≤ Real.sin l := by nlinarith only [hsl_lb, hl0]
  -- the core inequality chain
  have hstep1 : q * 12742000 ≤ radius :=
    (le_div_iff (by norm_num : (0 : ℝ) < 12742000)).1 hqle
  have hstep2 : q ^ 2 * 12742000 ^ 2 ≤ radius ^ 2 := by
    nlinarith only [hstep1, hq0, hr0]
  have hstep3 : l * (39960000 * c) = radius * Real.pi := by
    rw [hldef]
    field_simp
  have hstep5 := radius_sq_bound radius c l (Real.sin l) hc1 hr0 hstep3 hl0 hsl_lb hsl0
  have hstep6 : q ^ 2 ≤ Real.sin l ^ 2 *
      (c * (c * (1 - (1 / 637) ^ 2 / 2) - 1 / 637)) := by
    linarith only [hstep2, hstep5]
  -- bound the longitude separation
  set dlam := radians (b - lng) with hdlamdef
  have hdlam_pi : |dlam| ≤ Real.pi := by
    rw [hdlamdef, abs_radians]
    nlinarith only [hwrap, hπ0, abs_nonneg (b - lng)]
  have hdlam_half : |dlam| / 2 ≤ Real.pi / 2 := by linarith only [hdlam_pi]
  have hsin_dlam : |Real.sin (dlam / 2)| = Real.sin (|dlam| / 2) := by
    have h1 := @abs_sin_eq_sin_abs (dlam / 2)
      (by rw [abs_div, abs_two]; linarith only [hdlam_half, hπ0])
    rw [abs_div, abs_two] at h1
    exact h1
  have hsd0 : 0 ≤ Real.sin (|dlam| / 2) :=
    Real.sin_nonneg_of_nonneg_of_le_pi (by positivity)
      (by linarith only [hdlam_half, hπ0])
  have hsq_eq : Real.sin (|dlam| / 2) ^ 2 = Real.sin (dlam / 2) ^ 2 := by
    rw [← hsin_dlam, sq_abs]
  have husin : Real.sin (|dlam| / 2) ≤ Real.sin l := by
    by_contra hcon
    push_neg at hcon
    have h1 : Real.sin l ^ 2 < Real.sin (|dlam| / 2) ^ 2 := by
      nlinarith only [hcon, hsl0]
    have h2 : c * Real.cos φ2 * Real.sin (dlam / 2) ^ 2 ≤ q ^ 2 := le_trans hterm hA_q
    have h3 : c * (c * (1 - (1 / 637) ^ 2 / 2) - 1 / 637) ≤ c * Real.cos φ2 :=
      mul_le_mul_of_nonneg_left (le_trans hclb hcos2_lb) hcpos.le
    nlinarith only [h1, h2, h3, hstep6, hsq_eq, mul_pos hcpos hclb_pos,
      sq_nonneg (Real.sin (dlam / 2))]
  have hl_lt_half : l < Real.pi / 2 := by linarith only [hl_le, hπ1]
  have hu_le : |dlam| / 2 ≤ l := by
    by_contra hcon
    push_neg at hcon
    have h1 : Real.sin l < Real.sin (|dlam| / 2) :=
      Real.strictMonoOn_sin ⟨by linarith only [hl0, hπ0], by linarith only [hl_lt_half]⟩
        ⟨by linarith only [abs_nonneg dlam, hπ0], by linarith only [hdlam_half]⟩ hcon
    linarith only [h1, husin]
  have hlng_part : |b - lng| ≤ radius / (111000 * c) := by
    have h1 : |dlam| ≤ 2 * l := by linarith only [hu_le]
    have h2 := mul_le_mul_of_nonneg_right h1 hden_pos.le
    have h3 : 2 * l * (39960000 * c) = 2 * (radius * Real.pi) := by
      rw [mul_assoc, hstep3]
    rw [h3, hdlamdef, abs_radians] at h2
    rw [le_div_iff (mul_pos (by norm_num : (0 : ℝ) < 111000) hcpos)]
    nlinarith only [h2, hπ0, hcpos, abs_nonneg (b - lng)]
  refine ⟨hlat_part, hlng_part, ?_⟩
  rcases f with ⟨ola, olo⟩
  cases hfa
  cases hfb
  simp only [inBoundingBox, Bool.and_eq_true, decide_eq_true_eq]
  rcases abs_le.1 hlat_part with ⟨h1, h2⟩
  rcases abs_le.1 hlng_part with ⟨h3, h4⟩
  exact ⟨⟨⟨by linarith only [h1], by linarith only [h2]⟩, by linarith only [h3]⟩,
    by linarith only [h4]⟩

/-- C5 counterexample (antimeridian wraparound). Query point (0, −179.99°),
facility at (0, 179.99°): both coordinates present, query latitude 0 is
as non-extreme as it gets, the radius 10000 is within the accepted
bounds, and the true great-circle distance is ≈ 2224 m ≤ 10000 m — yet
the facility's raw longitude 179.99 is far outside the computed window
around −179.99, so the prefilter drops it: a false negative. -/
theorem claim_C5_counterexample :
    haversine_distance 0 (-17999 / 100) 0 (17999 / 100) ≤ 10000
    ∧ ¬(inBoundingBox (0 - 10000 / 111000) (0 + 10000 / 111000)
        ((-17999 / 100) - 10000 / (111000 * Real.cos (radians 0)))
        ((-17999 / 100) + 10000 / (111000 * Real.cos (radians 0)))
        ⟨some 0, some (17999 / 100)⟩ = true) := by
  constructor
  · have ha : hav_a 0 (-17999 / 100) 0 (17999 / 100) =
        Real.sin (radians (1 / 50) / 2) ^ 2 := by
      unfold hav_a
      rw [sub_self, radians_zero]
      have e1 : radians (17999 / 100 - -17999 / 100) / 2 =
          Real.pi - radians (1 / 50) / 2 := by
        unfold radians
        ring
      rw [e1, Real.sin_pi_sub]
      norm_num [Real.sin_zero, Real.cos_zero]
    have h2 := haversine_of_hav_eq_sin 0 (-17999 / 100) 0 (17999 / 100) (1 / 50) ha
      (by norm_num) (by norm_num)
    rw [h2]
    unfold radians
    linarith only [Real.pi_lt_3141593, Real.pi_pos]
  · intro hbox
    simp only [inBoundingBox, Bool.and_eq_true, decide_eq_true_eq] at hbox
    rcases hbox with ⟨⟨⟨-, -⟩, -⟩, h4⟩
    rw [radians_zero, Real.cos_zero] at h4
    norm_num at h4

/-- C5 witness: the amended claim at a facility exactly at the query
point (25, 121) with radius 1000 — every hypothesis holds and the
facility lands inside the window. -/
theorem claim_C5_witness :
    |(25 : ℝ) - 25| ≤ 1000 / 111000
    ∧ |(121 : ℝ) - 121| ≤ 1000 / (111000 * Real.cos (radians 25))
    ∧ inBoundingBox (25 - 1000 / 111000) (25 + 1000 / 111000)
        (121 - 1000 / (111000 * Real.cos (radians 25)))
        (121 + 1000 / (111000 * Real.cos (radians 25)))
        ⟨some 25, some 121⟩ = true := by
  exact claim_C5_bounding_box_no_false_negatives 25 121 1000 25 121
    ⟨some 25, some 121⟩ (by rw [abs_of_pos] <;> norm_num)
    (by rw [abs_of_pos] <;> norm_num) (by norm_num) (by norm_num)
    (by norm_num) rfl rfl (by rw [haversine_self]; norm_num)
